import Mathlib

/-!
# Verification of the dreamcog ownership-scoped persistence layer

This file gives a shallow embedding of the persistence layer (`db` helper
module), the drizzle schema, and the `scenarios.copy` router procedure of the
dreamcog repository, together with theorems settling the specification claims
about ownership scoping, cascade deletes, scenario copying, the login upsert,
unavailable-store behavior, partial updates, list ordering, and the API-key
projection.

The store is modelled as an in-memory relational state: each table is a list
of rows in insertion order plus an auto-increment counter.  The shared
connection that may be unavailable is modelled by passing `Option DB`: `none`
is the unavailable store.  MySQL `ORDER BY` over a possibly-NULL integer
column is modelled as a stable insertion sort on an `Option Int` key with
NULLs first, which matches MySQL's ascending NULL placement; descending
orders are obtained by negating the key.
-/

/-- One table of the store: rows in insertion order plus the auto-increment
counter used for the next assigned primary key. -/
structure Table (α : Type) where
  rows : List α
  nextId : Nat

/-- Insert one row built from the freshly assigned id; returns the new table
and the assigned id (MySQL `insertId`). -/
def Table.insertRow (t : Table α) (mk : Nat → α) : Table α × Nat :=
  ({ rows := t.rows ++ [mk t.nextId], nextId := t.nextId + 1 }, t.nextId)

/-- Comparison on nullable integer sort keys: SQL ascending order with NULLs
first. -/
def oleB : Option Int → Option Int → Bool
  | none, _ => true
  | some _, none => false
  | some a, some b => decide (a ≤ b)

theorem oleB_refl (x : Option Int) : oleB x x = true := by
  cases x <;> simp [oleB]

theorem oleB_total (x y : Option Int) : oleB x y = true ∨ oleB y x = true := by
  cases x <;> cases y <;> simp [oleB] <;> omega

theorem oleB_trans {x y z : Option Int} (h1 : oleB x y = true) (h2 : oleB y z = true) :
    oleB x z = true := by
  cases x <;> cases y <;> cases z <;> simp [oleB] at * <;> omega

/-- The ordering relation induced by a nullable integer key. -/
def keyRel (k : α → Option Int) : α → α → Prop :=
  fun a b => oleB (k a) (k b) = true

instance (k : α → Option Int) : DecidableRel (keyRel k) :=
  fun a b => inferInstanceAs (Decidable (_ = true))

instance (k : α → Option Int) : IsTotal α (keyRel k) :=
  ⟨fun a b => oleB_total (k a) (k b)⟩

instance (k : α → Option Int) : IsTrans α (keyRel k) :=
  ⟨fun _ _ _ => oleB_trans⟩

/-- SQL `ORDER BY` on a nullable integer key: a stable sort with NULLs first
(ascending).  Stability matches the repository's store returning tied rows in
insertion order. -/
def sqlOrderBy (k : α → Option Int) (l : List α) : List α :=
  List.insertionSort (keyRel k) l

theorem sqlOrderBy_perm (k : α → Option Int) (l : List α) :
    List.Perm (sqlOrderBy k l) l :=
  List.perm_insertionSort (keyRel k) l

theorem sqlOrderBy_sorted (k : α → Option Int) (l : List α) :
    List.Pairwise (keyRel k) (sqlOrderBy k l) :=
  List.sorted_insertionSort (keyRel k) l

theorem filter_orderedInsert_key (k : α → Option Int) (v : Option Int) (a : α)
    (l : List α) :
    (List.orderedInsert (keyRel k) a l).filter (fun x => k x == v) =
      if (k a == v) = true then a :: l.filter (fun x => k x == v)
      else l.filter (fun x => k x == v) := by
  induction l with
  | nil =>
    cases hva : (k a == v) <;> simp [List.orderedInsert, List.filter_cons, hva]
  | cons b bs ih =>
    rw [List.orderedInsert]
    by_cases hab : keyRel k a b
    · rw [if_pos hab]
      cases hva : (k a == v) <;> cases hvb : (k b == v) <;>
        simp [List.filter_cons, hva, hvb]
    · rw [if_neg hab]
      cases hva : (k a == v)
      · cases hvb : (k b == v) <;> simp [List.filter_cons, hva, hvb, ih]
      · cases hvb : (k b == v)
        · simp [List.filter_cons, hva, hvb, ih]
        · refine absurd ?_ hab
          have h1 : k a = v := by simpa using hva
          have h2 : k b = v := by simpa using hvb
          show oleB (k a) (k b) = true
          rw [h1, h2]
          exact oleB_refl v

/-- Stability of `sqlOrderBy`: the rows carrying any fixed key value appear in
the sorted output exactly in their original (insertion) order. -/
theorem sqlOrderBy_stable (k : α → Option Int) (v : Option Int) (l : List α) :
    (sqlOrderBy k l).filter (fun x => k x == v) = l.filter (fun x => k x == v) := by
  induction l with
  | nil => rfl
  | cons a as ih =>
    show (List.orderedInsert (keyRel k) a (sqlOrderBy k as)).filter _ = _
    rw [filter_orderedInsert_key]
    cases hva : (k a == v) <;> simp [List.filter_cons, hva, ih]

/-- The `charsStartsWith pat l` checks whether `pat` is an initial segment of `l`. -/
def charsStartsWith : List Char → List Char → Bool
  | [], _ => true
  | _ :: _, [] => false
  | a :: as, b :: bs => a == b && charsStartsWith as bs

/-- The `charsHasSub pat l` checks whether `pat` occurs contiguously inside `l`. -/
def charsHasSub (pat : List Char) : List Char → Bool
  | [] => pat.isEmpty
  | c :: cs => charsStartsWith pat (c :: cs) || charsHasSub pat cs

/-- Model of the SQL pattern `LIKE '%q%'`: substring containment. -/
def strContains (s q : String) : Bool :=
  charsHasSub q.data s.data

/-! ## Data model (drizzle schema)

Rows carry the schema's columns; nullable columns are `Option`.  `timestamp`
columns are modelled as `Nat` instants.  The `aspectRatio` column of
`generated_images` is modelled by the field `aspect`. -/

/-- The `users` table row. -/
structure UserRow where
  id : Nat
  openId : String
  name : Option String
  email : Option String
  loginMethod : Option String
  role : String
  createdAt : Nat
  updatedAt : Nat
  lastSignedIn : Nat
deriving DecidableEq

/-- The `api_keys` table row. -/
structure ApiKeyRow where
  id : Nat
  userId : Nat
  keyName : String
  encryptedKey : String
  lastUsed : Option Nat
  createdAt : Nat
deriving DecidableEq

/-- The `characters` table row. -/
structure CharacterRow where
  id : Nat
  userId : Nat
  name : String
  label : String
  promptDescription : Option String
  displayDescription : Option String
  imageUrl : Option String
  isUserCharacter : Option Bool
  createdAt : Nat
  updatedAt : Nat
deriving DecidableEq

/-- The `scenarios` table row. -/
structure ScenarioRow where
  id : Nat
  userId : Nat
  title : String
  promptDescription : Option String
  displayDescription : Option String
  imageUrl : Option String
  isPublic : Option Bool
  createdAt : Nat
  updatedAt : Nat
deriving DecidableEq

/-- The `scenario_characters` table row. -/
structure ScenarioCharacterRow where
  id : Nat
  scenarioId : Nat
  characterId : Option Nat
  name : String
  label : String
  promptDescription : Option String
  isUserCharacter : Option Bool
  orderIndex : Option Int
deriving DecidableEq

/-- The `interactionType` enum of `scenario_interactions`. -/
inductive InteractionType where
  | message
  | text
  | instruction
deriving DecidableEq

/-- The `scenario_interactions` table row. -/
structure ScenarioInteractionRow where
  id : Nat
  scenarioId : Nat
  interactionType : InteractionType
  characterLabel : Option String
  content : String
  isSticky : Option Bool
  orderIndex : Option Int
deriving DecidableEq

/-- The `chat_sessions` table row; the `samplingParams` json column is kept as an
opaque optional payload string. -/
structure ChatSessionRow where
  id : Nat
  userId : Nat
  scenarioId : Option Nat
  title : String
  systemPrompt : Option String
  modelId : Option String
  samplingParams : Option String
  createdAt : Nat
  updatedAt : Nat
deriving DecidableEq

/-- The `messageType` enum of `chat_messages`. -/
inductive MessageType where
  | message
  | text
  | instruction
  | user
  | system
deriving DecidableEq

/-- The `chat_messages` table row. -/
structure ChatMessageRow where
  id : Nat
  sessionId : Nat
  messageType : MessageType
  characterLabel : Option String
  characterName : Option String
  content : String
  isSticky : Option Bool
  createdAt : Nat
deriving DecidableEq

/-- The `stories` table row. -/
structure StoryRow where
  id : Nat
  userId : Nat
  title : String
  plotDescription : Option String
  styleDescription : Option String
  content : Option String
  modelId : Option String
  samplingParams : Option String
  createdAt : Nat
  updatedAt : Nat
deriving DecidableEq

/-- The `story_characters` table row. -/
structure StoryCharacterRow where
  id : Nat
  storyId : Nat
  name : String
  description : Option String
  orderIndex : Option Int
deriving DecidableEq

/-- The `generated_images` table row (`aspect` models the `aspectRatio` column). -/
structure GeneratedImageRow where
  id : Nat
  userId : Nat
  includePrompt : String
  excludePrompt : Option String
  cfgScale : Option Int
  fidelity : Option Int
  aspect : Option String
  style : Option String
  seed : Option Int
  imageUrl : Option String
  createdAt : Nat
deriving DecidableEq

/-- The whole relational store. -/
structure DB where
  users : Table UserRow
  apiKeys : Table ApiKeyRow
  characters : Table CharacterRow
  scenarios : Table ScenarioRow
  scenarioCharacters : Table ScenarioCharacterRow
  scenarioInteractions : Table ScenarioInteractionRow
  chatSessions : Table ChatSessionRow
  chatMessages : Table ChatMessageRow
  stories : Table StoryRow
  storyCharacters : Table StoryCharacterRow
  generatedImages : Table GeneratedImageRow

/-- A store with every table empty (auto-increment counters start at 1, as in
MySQL). -/
def emptyDB : DB where
  users := ⟨[], 1⟩
  apiKeys := ⟨[], 1⟩
  characters := ⟨[], 1⟩
  scenarios := ⟨[], 1⟩
  scenarioCharacters := ⟨[], 1⟩
  scenarioInteractions := ⟨[], 1⟩
  chatSessions := ⟨[], 1⟩
  chatMessages := ⟨[], 1⟩
  stories := ⟨[], 1⟩
  storyCharacters := ⟨[], 1⟩
  generatedImages := ⟨[], 1⟩

/-! ## Insert payloads

These mirror the drizzle `$inferInsert` types as used by this repository.
`none` at the outer `Option` is a field the caller did not supply
(TypeScript `undefined`); for columns that are nullable *and* carry a column
default, a two-level `Option` distinguishes "not supplied" (outer `none`,
column default applies) from an explicit SQL NULL (`some none`).  Store-
managed columns (`id`, `createdAt`, `updatedAt`) are assigned at insert and
are not part of the payloads, as no code path of this repository supplies
them. -/

/-- The `InsertUser` payload for `upsertUser`.  The text columns distinguish
undefined (outer `none`) from an explicit null (`some none`). -/
structure InsertUser where
  openId : String
  name : Option (Option String) := none
  email : Option (Option String) := none
  loginMethod : Option (Option String) := none
  lastSignedIn : Option Nat := none
  role : Option String := none

/-- Configuration collaborator: the owner identity granted the admin role. -/
structure Env where
  ownerOpenId : String

/-- The `values` object accumulated by `upsertUser` before the insert. -/
structure UserValues where
  openId : String
  name : Option (Option String) := none
  email : Option (Option String) := none
  loginMethod : Option (Option String) := none
  lastSignedIn : Option Nat := none
  role : Option String := none

/-- The `updateSet` object accumulated by `upsertUser` for the
`onDuplicateKeyUpdate` clause. -/
structure UserUpdateSet where
  name : Option (Option String) := none
  email : Option (Option String) := none
  loginMethod : Option (Option String) := none
  lastSignedIn : Option Nat := none
  role : Option String := none

/-- Lines 46-82 of the db helpers: build the insert `values` and the
`updateSet` from the caller-supplied identity.  A field left undefined is
skipped; a supplied field is written as supplied (`value ?? null` maps a
null to null and keeps every other value, including the empty string).
An unsupplied role becomes `"admin"` in both objects when the `openId`
equals the configured owner identity.  `values.lastSignedIn` falls back to
now, and an updateSet that would otherwise be empty is replaced by a
`lastSignedIn = now` touch. -/
def buildUpsert (env : Env) (now : Nat) (u : InsertUser) :
    UserValues × UserUpdateSet :=
  let values : UserValues := { openId := u.openId }
  let upd : UserUpdateSet := {}
  let values := { values with name := u.name }
  let upd := { upd with name := u.name }
  let values := { values with email := u.email }
  let upd := { upd with email := u.email }
  let values := { values with loginMethod := u.loginMethod }
  let upd := { upd with loginMethod := u.loginMethod }
  let values := { values with lastSignedIn := u.lastSignedIn }
  let upd := { upd with lastSignedIn := u.lastSignedIn }
  let pair :=
    match u.role with
    | some r => ({ values with role := some r }, { upd with role := some r })
    | none =>
      if u.openId = env.ownerOpenId then
        ({ values with role := some "admin" }, { upd with role := some "admin" })
      else (values, upd)
  let values := pair.1
  let upd := pair.2
  let values :=
    if values.lastSignedIn = none then { values with lastSignedIn := some now }
    else values
  let upd :=
    if upd.name = none ∧ upd.email = none ∧ upd.loginMethod = none ∧
        upd.lastSignedIn = none ∧ upd.role = none then
      { upd with lastSignedIn := some now }
    else upd
  (values, upd)

/-- Application of the `onDuplicateKeyUpdate` set to an existing row (the
`updatedAt` column is refreshed by its `onUpdateNow` schema clause). -/
def applyUserUpdateSet (s : UserUpdateSet) (now : Nat) (r : UserRow) : UserRow :=
  { r with
    name := s.name.getD r.name
    email := s.email.getD r.email
    loginMethod := s.loginMethod.getD r.loginMethod
    lastSignedIn := s.lastSignedIn.getD r.lastSignedIn
    role := s.role.getD r.role
    updatedAt := now }

/-- The `upsertUser`: requires a non-empty `openId` (a falsy `openId` throws);
silently returns when the store is unavailable; otherwise performs the
atomic insert-or-update keyed on the unique `openId` column. -/
def upsertUser (db? : Option DB) (env : Env) (now : Nat) (u : InsertUser) :
    Except String (Option DB) :=
  if u.openId = "" then .error "User openId is required for upsert"
  else
    match db? with
    | none => .ok none
    | some db =>
      let (values, upd) := buildUpsert env now u
      if db.users.rows.any (fun r => r.openId == u.openId) then
        .ok (some { db with users := { db.users with
          rows := db.users.rows.map (fun r =>
            if r.openId == u.openId then applyUserUpdateSet upd now r else r) } })
      else
        let mkRow : Nat → UserRow := fun i =>
          { id := i
            openId := u.openId
            name := values.name.getD none
            email := values.email.getD none
            loginMethod := values.loginMethod.getD none
            role := values.role.getD "user"
            createdAt := now
            updatedAt := now
            lastSignedIn := values.lastSignedIn.getD now }
        .ok (some { db with users := (db.users.insertRow mkRow).1 })

/-- The `getUserByOpenId`. -/
def getUserByOpenIdCore (db : DB) (openId : String) : Option UserRow :=
  db.users.rows.find? (fun r => r.openId == openId)

/-- The `getUserByOpenId`, unavailable store yields absent. -/
def getUserByOpenId (db? : Option DB) (openId : String) : Option UserRow :=
  match db? with
  | none => none
  | some db => getUserByOpenIdCore db openId

/-! ## API key helpers -/

/-- The `InsertApiKey` payload. -/
structure InsertApiKey where
  userId : Nat
  keyName : String
  encryptedKey : String
  lastUsed : Option Nat := none

/-- The projected row shape returned by `getApiKeysByUserId`: the
`encryptedKey` column is never selected. -/
structure ApiKeySummary where
  id : Nat
  keyName : String
  lastUsed : Option Nat
  createdAt : Nat
deriving DecidableEq

/-- The `createApiKey` on an available store. -/
def createApiKeyCore (db : DB) (now : Nat) (data : InsertApiKey) : DB × Nat :=
  let (t, i) := db.apiKeys.insertRow (fun i =>
    { id := i, userId := data.userId, keyName := data.keyName,
      encryptedKey := data.encryptedKey, lastUsed := data.lastUsed,
      createdAt := now })
  ({ db with apiKeys := t }, i)

/-- The `createApiKey`: raises when the store is unavailable. -/
def createApiKey (db? : Option DB) (now : Nat) (data : InsertApiKey) :
    Except String (DB × Nat) :=
  match db? with
  | none => .error "Database not available"
  | some db => .ok (createApiKeyCore db now data)

/-- The `getApiKeysByUserId` on an available store: a four-column projection,
filtered by the owner, with no ORDER BY clause (insertion order). -/
def getApiKeysByUserIdCore (db : DB) (userId : Nat) : List ApiKeySummary :=
  (db.apiKeys.rows.filter (fun r => r.userId == userId)).map (fun r =>
    { id := r.id, keyName := r.keyName, lastUsed := r.lastUsed,
      createdAt := r.createdAt })

/-- The `getApiKeysByUserId`: empty when the store is unavailable. -/
def getApiKeysByUserId (db? : Option DB) (userId : Nat) : List ApiKeySummary :=
  match db? with
  | none => []
  | some db => getApiKeysByUserIdCore db userId

/-- The `getApiKeyById` on an available store: filtered by row id and owner. -/
def getApiKeyByIdCore (db : DB) (id userId : Nat) : Option ApiKeyRow :=
  db.apiKeys.rows.find? (fun r => r.id == id && r.userId == userId)

/-- The `getApiKeyById`: absent when the store is unavailable. -/
def getApiKeyById (db? : Option DB) (id userId : Nat) : Option ApiKeyRow :=
  match db? with
  | none => none
  | some db => getApiKeyByIdCore db id userId

/-- The `deleteApiKey` on an available store: filtered by row id and owner. -/
def deleteApiKeyCore (db : DB) (id userId : Nat) : DB :=
  { db with apiKeys := { db.apiKeys with
      rows := db.apiKeys.rows.filter (fun r => !(r.id == id && r.userId == userId)) } }

/-- The `deleteApiKey`: silently returns when the store is unavailable. -/
def deleteApiKey (db? : Option DB) (id userId : Nat) : Option DB :=
  match db? with
  | none => none
  | some db => some (deleteApiKeyCore db id userId)

/-- The `updateApiKeyLastUsed` on an available store: touches `lastUsed` filtered
by the row id alone (no owner filter in the source). -/
def updateApiKeyLastUsedCore (db : DB) (now : Nat) (id : Nat) : DB :=
  { db with apiKeys := { db.apiKeys with
      rows := db.apiKeys.rows.map (fun r =>
        if r.id == id then { r with lastUsed := some now } else r) } }

/-- The `updateApiKeyLastUsed`: silently returns when the store is unavailable. -/
def updateApiKeyLastUsed (db? : Option DB) (now : Nat) (id : Nat) : Option DB :=
  match db? with
  | none => none
  | some db => some (updateApiKeyLastUsedCore db now id)

/-! ## Character helpers -/

/-- The `InsertCharacter` payload. -/
structure InsertCharacter where
  userId : Nat
  name : String
  label : String
  promptDescription : Option (Option String) := none
  displayDescription : Option (Option String) := none
  imageUrl : Option (Option String) := none
  isUserCharacter : Option (Option Bool) := none

/-- The `Partial InsertCharacter` update payload as supplied by the update
router (ownership fields travel separately). -/
structure CharacterUpdate where
  name : Option String := none
  label : Option String := none
  promptDescription : Option (Option String) := none
  displayDescription : Option (Option String) := none
  imageUrl : Option (Option String) := none
  isUserCharacter : Option (Option Bool) := none

/-- Drizzle `.set` semantics for characters: undefined fields are skipped,
supplied fields (including explicit null and the empty string) overwrite;
the schema's `onUpdateNow` clause refreshes `updatedAt`. -/
def applyCharacterSet (d : CharacterUpdate) (now : Nat) (r : CharacterRow) :
    CharacterRow :=
  { r with
    name := d.name.getD r.name
    label := d.label.getD r.label
    promptDescription := d.promptDescription.getD r.promptDescription
    displayDescription := d.displayDescription.getD r.displayDescription
    imageUrl := d.imageUrl.getD r.imageUrl
    isUserCharacter := d.isUserCharacter.getD r.isUserCharacter
    updatedAt := now }

/-- The `createCharacter` on an available store (defaulted column:
`isUserCharacter` falls back to `false`). -/
def createCharacterCore (db : DB) (now : Nat) (data : InsertCharacter) :
    DB × Nat :=
  let (t, i) := db.characters.insertRow (fun i =>
    { id := i, userId := data.userId, name := data.name, label := data.label,
      promptDescription := data.promptDescription.getD none,
      displayDescription := data.displayDescription.getD none,
      imageUrl := data.imageUrl.getD none,
      isUserCharacter := data.isUserCharacter.getD (some false),
      createdAt := now, updatedAt := now })
  ({ db with characters := t }, i)

/-- The `createCharacter`: raises when the store is unavailable. -/
def createCharacter (db? : Option DB) (now : Nat) (data : InsertCharacter) :
    Except String (DB × Nat) :=
  match db? with
  | none => .error "Database not available"
  | some db => .ok (createCharacterCore db now data)

/-- The `getCharactersByUserId` on an available store: owner-filtered, most
recently updated first. -/
def getCharactersByUserIdCore (db : DB) (userId : Nat) : List CharacterRow :=
  sqlOrderBy (fun r => some (-(r.updatedAt : Int)))
    (db.characters.rows.filter (fun r => r.userId == userId))

/-- The `getCharactersByUserId`: empty when the store is unavailable. -/
def getCharactersByUserId (db? : Option DB) (userId : Nat) : List CharacterRow :=
  match db? with
  | none => []
  | some db => getCharactersByUserIdCore db userId

/-- The `getCharacterById` on an available store: filtered by row id and owner. -/
def getCharacterByIdCore (db : DB) (id userId : Nat) : Option CharacterRow :=
  db.characters.rows.find? (fun r => r.id == id && r.userId == userId)

/-- The `getCharacterById`: absent when the store is unavailable. -/
def getCharacterById (db? : Option DB) (id userId : Nat) : Option CharacterRow :=
  match db? with
  | none => none
  | some db => getCharacterByIdCore db id userId

/-- The `updateCharacter` on an available store: filtered by row id and owner. -/
def updateCharacterCore (db : DB) (id userId : Nat) (data : CharacterUpdate)
    (now : Nat) : DB :=
  { db with characters := { db.characters with
      rows := db.characters.rows.map (fun r =>
        if r.id == id && r.userId == userId then applyCharacterSet data now r
        else r) } }

/-- The `updateCharacter`: silently returns when the store is unavailable. -/
def updateCharacter (db? : Option DB) (id userId : Nat) (data : CharacterUpdate)
    (now : Nat) : Option DB :=
  match db? with
  | none => none
  | some db => some (updateCharacterCore db id userId data now)

/-- The `deleteCharacter` on an available store: filtered by row id and owner. -/
def deleteCharacterCore (db : DB) (id userId : Nat) : DB :=
  { db with characters := { db.characters with
      rows := db.characters.rows.filter (fun r =>
        !(r.id == id && r.userId == userId)) } }

/-- The `deleteCharacter`: silently returns when the store is unavailable. -/
def deleteCharacter (db? : Option DB) (id userId : Nat) : Option DB :=
  match db? with
  | none => none
  | some db => some (deleteCharacterCore db id userId)

/-! ## Scenario helpers -/

/-- The `InsertScenario` payload. -/
structure InsertScenario where
  userId : Nat
  title : String
  promptDescription : Option (Option String) := none
  displayDescription : Option (Option String) := none
  imageUrl : Option (Option String) := none
  isPublic : Option (Option Bool) := none

/-- The `Partial InsertScenario` update payload. -/
structure ScenarioUpdate where
  title : Option String := none
  promptDescription : Option (Option String) := none
  displayDescription : Option (Option String) := none
  imageUrl : Option (Option String) := none
  isPublic : Option (Option Bool) := none

/-- Drizzle `.set` semantics for scenarios. -/
def applyScenarioSet (d : ScenarioUpdate) (now : Nat) (r : ScenarioRow) :
    ScenarioRow :=
  { r with
    title := d.title.getD r.title
    promptDescription := d.promptDescription.getD r.promptDescription
    displayDescription := d.displayDescription.getD r.displayDescription
    imageUrl := d.imageUrl.getD r.imageUrl
    isPublic := d.isPublic.getD r.isPublic
    updatedAt := now }

/-- The `createScenario` on an available store (defaulted column: `isPublic`
falls back to `false`). -/
def createScenarioCore (db : DB) (now : Nat) (data : InsertScenario) :
    DB × Nat :=
  let (t, i) := db.scenarios.insertRow (fun i =>
    { id := i, userId := data.userId, title := data.title,
      promptDescription := data.promptDescription.getD none,
      displayDescription := data.displayDescription.getD none,
      imageUrl := data.imageUrl.getD none,
      isPublic := data.isPublic.getD (some false),
      createdAt := now, updatedAt := now })
  ({ db with scenarios := t }, i)

/-- The `createScenario`: raises when the store is unavailable. -/
def createScenario (db? : Option DB) (now : Nat) (data : InsertScenario) :
    Except String (DB × Nat) :=
  match db? with
  | none => .error "Database not available"
  | some db => .ok (createScenarioCore db now data)

/-- The `getScenariosByUserId` on an available store: owner-filtered, most
recently updated first. -/
def getScenariosByUserIdCore (db : DB) (userId : Nat) : List ScenarioRow :=
  sqlOrderBy (fun r => some (-(r.updatedAt : Int)))
    (db.scenarios.rows.filter (fun r => r.userId == userId))

/-- The `getScenariosByUserId`: empty when the store is unavailable. -/
def getScenariosByUserId (db? : Option DB) (userId : Nat) : List ScenarioRow :=
  match db? with
  | none => []
  | some db => getScenariosByUserIdCore db userId

/-- The `getPublicScenarios` on an available store: public rows, optionally
title-searched, most recently *created* first. -/
def getPublicScenariosCore (db : DB) (searchQuery : Option String) :
    List ScenarioRow :=
  match searchQuery with
  | some q =>
    sqlOrderBy (fun r => some (-(r.createdAt : Int)))
      (db.scenarios.rows.filter (fun r =>
        r.isPublic == some true && strContains r.title q))
  | none =>
    sqlOrderBy (fun r => some (-(r.createdAt : Int)))
      (db.scenarios.rows.filter (fun r => r.isPublic == some true))

/-- The `getPublicScenarios`: empty when the store is unavailable. -/
def getPublicScenarios (db? : Option DB) (searchQuery : Option String) :
    List ScenarioRow :=
  match db? with
  | none => []
  | some db => getPublicScenariosCore db searchQuery

/-- The `getScenarioById` on an available store: the owner-agnostic point lookup
(scenarios may be public). -/
def getScenarioByIdCore (db : DB) (id : Nat) : Option ScenarioRow :=
  db.scenarios.rows.find? (fun r => r.id == id)

/-- The `getScenarioById`: absent when the store is unavailable. -/
def getScenarioById (db? : Option DB) (id : Nat) : Option ScenarioRow :=
  match db? with
  | none => none
  | some db => getScenarioByIdCore db id

/-- The `updateScenario` on an available store: filtered by row id and owner. -/
def updateScenarioCore (db : DB) (id userId : Nat) (data : ScenarioUpdate)
    (now : Nat) : DB :=
  { db with scenarios := { db.scenarios with
      rows := db.scenarios.rows.map (fun r =>
        if r.id == id && r.userId == userId then applyScenarioSet data now r
        else r) } }

/-- The `updateScenario`: silently returns when the store is unavailable. -/
def updateScenario (db? : Option DB) (id userId : Nat) (data : ScenarioUpdate)
    (now : Nat) : Option DB :=
  match db? with
  | none => none
  | some db => some (updateScenarioCore db id userId data now)

/-- The `deleteScenario` on an available store: deletes the child interactions
and characters matching the scenario id (no owner filter on the children),
then the scenario row filtered by id and owner. -/
def deleteScenarioCore (db : DB) (id userId : Nat) : DB :=
  { db with
    scenarioInteractions := { db.scenarioInteractions with
      rows := db.scenarioInteractions.rows.filter (fun r =>
        !(r.scenarioId == id)) }
    scenarioCharacters := { db.scenarioCharacters with
      rows := db.scenarioCharacters.rows.filter (fun r =>
        !(r.scenarioId == id)) }
    scenarios := { db.scenarios with
      rows := db.scenarios.rows.filter (fun r =>
        !(r.id == id && r.userId == userId)) } }

/-- The `deleteScenario`: silently returns when the store is unavailable. -/
def deleteScenario (db? : Option DB) (id userId : Nat) : Option DB :=
  match db? with
  | none => none
  | some db => some (deleteScenarioCore db id userId)

/-! ## Scenario character and interaction helpers -/

/-- The `InsertScenarioCharacter` payload. -/
structure InsertScenarioCharacter where
  scenarioId : Nat
  characterId : Option Nat := none
  name : String
  label : String
  promptDescription : Option (Option String) := none
  isUserCharacter : Option (Option Bool) := none
  orderIndex : Option (Option Int) := none

/-- The `addScenarioCharacter` on an available store (defaults: `isUserCharacter`
false, `orderIndex` 0). -/
def addScenarioCharacterCore (db : DB) (data : InsertScenarioCharacter) :
    DB × Nat :=
  let (t, i) := db.scenarioCharacters.insertRow (fun i =>
    { id := i, scenarioId := data.scenarioId, characterId := data.characterId,
      name := data.name, label := data.label,
      promptDescription := data.promptDescription.getD none,
      isUserCharacter := data.isUserCharacter.getD (some false),
      orderIndex := data.orderIndex.getD (some 0) })
  ({ db with scenarioCharacters := t }, i)

/-- The `addScenarioCharacter`: raises when the store is unavailable. -/
def addScenarioCharacter (db? : Option DB) (data : InsertScenarioCharacter) :
    Except String (DB × Nat) :=
  match db? with
  | none => .error "Database not available"
  | some db => .ok (addScenarioCharacterCore db data)

/-- The `getScenarioCharacters` on an available store: filtered by scenario id
(no owner filter), ascending `orderIndex`. -/
def getScenarioCharactersCore (db : DB) (scenarioId : Nat) :
    List ScenarioCharacterRow :=
  sqlOrderBy (fun r => r.orderIndex)
    (db.scenarioCharacters.rows.filter (fun r => r.scenarioId == scenarioId))

/-- The `getScenarioCharacters`: empty when the store is unavailable. -/
def getScenarioCharacters (db? : Option DB) (scenarioId : Nat) :
    List ScenarioCharacterRow :=
  match db? with
  | none => []
  | some db => getScenarioCharactersCore db scenarioId

/-- The `deleteScenarioCharacter` on an available store: filtered by the row id
alone (no owner filter in the source). -/
def deleteScenarioCharacterCore (db : DB) (id : Nat) : DB :=
  { db with scenarioCharacters := { db.scenarioCharacters with
      rows := db.scenarioCharacters.rows.filter (fun r => !(r.id == id)) } }

/-- The `deleteScenarioCharacter`: silently returns when the store is
unavailable. -/
def deleteScenarioCharacter (db? : Option DB) (id : Nat) : Option DB :=
  match db? with
  | none => none
  | some db => some (deleteScenarioCharacterCore db id)

/-- The `InsertScenarioInteraction` payload. -/
structure InsertScenarioInteraction where
  scenarioId : Nat
  interactionType : InteractionType
  characterLabel : Option String := none
  content : String
  isSticky : Option (Option Bool) := none
  orderIndex : Option (Option Int) := none

/-- The `Partial InsertScenarioInteraction` update payload. -/
structure ScenarioInteractionUpdate where
  interactionType : Option InteractionType := none
  characterLabel : Option (Option String) := none
  content : Option String := none
  isSticky : Option (Option Bool) := none
  orderIndex : Option (Option Int) := none

/-- The `addScenarioInteraction` on an available store (defaults: `isSticky`
false, `orderIndex` 0). -/
def addScenarioInteractionCore (db : DB) (data : InsertScenarioInteraction) :
    DB × Nat :=
  let (t, i) := db.scenarioInteractions.insertRow (fun i =>
    { id := i, scenarioId := data.scenarioId,
      interactionType := data.interactionType,
      characterLabel := data.characterLabel,
      content := data.content,
      isSticky := data.isSticky.getD (some false),
      orderIndex := data.orderIndex.getD (some 0) })
  ({ db with scenarioInteractions := t }, i)

/-- The `addScenarioInteraction`: raises when the store is unavailable. -/
def addScenarioInteraction (db? : Option DB) (data : InsertScenarioInteraction) :
    Except String (DB × Nat) :=
  match db? with
  | none => .error "Database not available"
  | some db => .ok (addScenarioInteractionCore db data)

/-- The `getScenarioInteractions` on an available store: filtered by scenario id
(no owner filter), ascending `orderIndex`. -/
def getScenarioInteractionsCore (db : DB) (scenarioId : Nat) :
    List ScenarioInteractionRow :=
  sqlOrderBy (fun r => r.orderIndex)
    (db.scenarioInteractions.rows.filter (fun r => r.scenarioId == scenarioId))

/-- The `getScenarioInteractions`: empty when the store is unavailable. -/
def getScenarioInteractions (db? : Option DB) (scenarioId : Nat) :
    List ScenarioInteractionRow :=
  match db? with
  | none => []
  | some db => getScenarioInteractionsCore db scenarioId

/-- Drizzle `.set` semantics for scenario interactions (no `updatedAt`
column on this table). -/
def applyScenarioInteractionSet (d : ScenarioInteractionUpdate)
    (r : ScenarioInteractionRow) : ScenarioInteractionRow :=
  { r with
    interactionType := d.interactionType.getD r.interactionType
    characterLabel := d.characterLabel.getD r.characterLabel
    content := d.content.getD r.content
    isSticky := d.isSticky.getD r.isSticky
    orderIndex := d.orderIndex.getD r.orderIndex }

/-- The `updateScenarioInteraction` on an available store: filtered by the row id
alone (no owner filter in the source). -/
def updateScenarioInteractionCore (db : DB) (id : Nat)
    (data : ScenarioInteractionUpdate) : DB :=
  { db with scenarioInteractions := { db.scenarioInteractions with
      rows := db.scenarioInteractions.rows.map (fun r =>
        if r.id == id then applyScenarioInteractionSet data r else r) } }

/-- The `updateScenarioInteraction`: silently returns when the store is
unavailable. -/
def updateScenarioInteraction (db? : Option DB) (id : Nat)
    (data : ScenarioInteractionUpdate) : Option DB :=
  match db? with
  | none => none
  | some db => some (updateScenarioInteractionCore db id data)

/-- The `deleteScenarioInteraction` on an available store: filtered by the row id
alone (no owner filter in the source). -/
def deleteScenarioInteractionCore (db : DB) (id : Nat) : DB :=
  { db with scenarioInteractions := { db.scenarioInteractions with
      rows := db.scenarioInteractions.rows.filter (fun r => !(r.id == id)) } }

/-- The `deleteScenarioInteraction`: silently returns when the store is
unavailable. -/
def deleteScenarioInteraction (db? : Option DB) (id : Nat) : Option DB :=
  match db? with
  | none => none
  | some db => some (deleteScenarioInteractionCore db id)

/-! ## Chat session and message helpers -/

/-- The `InsertChatSession` payload (the create router always supplies
`scenarioId`, `systemPrompt`, `modelId`, `samplingParams`, defaulting them
with `?? null` / `?? "lucid-v1-medium"` / default params). -/
structure InsertChatSession where
  userId : Nat
  scenarioId : Option Nat := none
  title : String
  systemPrompt : Option String := none
  modelId : Option (Option String) := none
  samplingParams : Option String := none

/-- The `Partial InsertChatSession` update payload as supplied by the update
router. -/
structure ChatSessionUpdate where
  title : Option String := none
  systemPrompt : Option (Option String) := none
  modelId : Option (Option String) := none
  samplingParams : Option (Option String) := none

/-- Drizzle `.set` semantics for chat sessions. -/
def applyChatSessionSet (d : ChatSessionUpdate) (now : Nat) (r : ChatSessionRow) :
    ChatSessionRow :=
  { r with
    title := d.title.getD r.title
    systemPrompt := d.systemPrompt.getD r.systemPrompt
    modelId := d.modelId.getD r.modelId
    samplingParams := d.samplingParams.getD r.samplingParams
    updatedAt := now }

/-- The `createChatSession` on an available store (defaulted column: `modelId`
falls back to `"lucid-v1-medium"`). -/
def createChatSessionCore (db : DB) (now : Nat) (data : InsertChatSession) :
    DB × Nat :=
  let (t, i) := db.chatSessions.insertRow (fun i =>
    { id := i, userId := data.userId, scenarioId := data.scenarioId,
      title := data.title, systemPrompt := data.systemPrompt,
      modelId := data.modelId.getD (some "lucid-v1-medium"),
      samplingParams := data.samplingParams,
      createdAt := now, updatedAt := now })
  ({ db with chatSessions := t }, i)

/-- The `createChatSession`: raises when the store is unavailable. -/
def createChatSession (db? : Option DB) (now : Nat) (data : InsertChatSession) :
    Except String (DB × Nat) :=
  match db? with
  | none => .error "Database not available"
  | some db => .ok (createChatSessionCore db now data)

/-- The `getChatSessionsByUserId` on an available store: owner-filtered, most
recently updated first. -/
def getChatSessionsByUserIdCore (db : DB) (userId : Nat) : List ChatSessionRow :=
  sqlOrderBy (fun r => some (-(r.updatedAt : Int)))
    (db.chatSessions.rows.filter (fun r => r.userId == userId))

/-- The `getChatSessionsByUserId`: empty when the store is unavailable. -/
def getChatSessionsByUserId (db? : Option DB) (userId : Nat) :
    List ChatSessionRow :=
  match db? with
  | none => []
  | some db => getChatSessionsByUserIdCore db userId

/-- The `getChatSessionById` on an available store: filtered by row id and owner. -/
def getChatSessionByIdCore (db : DB) (id userId : Nat) : Option ChatSessionRow :=
  db.chatSessions.rows.find? (fun r => r.id == id && r.userId == userId)

/-- The `getChatSessionById`: absent when the store is unavailable. -/
def getChatSessionById (db? : Option DB) (id userId : Nat) :
    Option ChatSessionRow :=
  match db? with
  | none => none
  | some db => getChatSessionByIdCore db id userId

/-- The `updateChatSession` on an available store: filtered by row id and owner. -/
def updateChatSessionCore (db : DB) (id userId : Nat) (data : ChatSessionUpdate)
    (now : Nat) : DB :=
  { db with chatSessions := { db.chatSessions with
      rows := db.chatSessions.rows.map (fun r =>
        if r.id == id && r.userId == userId then applyChatSessionSet data now r
        else r) } }

/-- The `updateChatSession`: silently returns when the store is unavailable. -/
def updateChatSession (db? : Option DB) (id userId : Nat)
    (data : ChatSessionUpdate) (now : Nat) : Option DB :=
  match db? with
  | none => none
  | some db => some (updateChatSessionCore db id userId data now)

/-- The `deleteChatSession` on an available store: deletes the child messages
matching the session id (no owner filter on the children), then the session
row filtered by id and owner. -/
def deleteChatSessionCore (db : DB) (id userId : Nat) : DB :=
  { db with
    chatMessages := { db.chatMessages with
      rows := db.chatMessages.rows.filter (fun r => !(r.sessionId == id)) }
    chatSessions := { db.chatSessions with
      rows := db.chatSessions.rows.filter (fun r =>
        !(r.id == id && r.userId == userId)) } }

/-- The `deleteChatSession`: silently returns when the store is unavailable. -/
def deleteChatSession (db? : Option DB) (id userId : Nat) : Option DB :=
  match db? with
  | none => none
  | some db => some (deleteChatSessionCore db id userId)

/-- The `InsertChatMessage` payload. -/
structure InsertChatMessage where
  sessionId : Nat
  messageType : MessageType
  characterLabel : Option String := none
  characterName : Option String := none
  content : String
  isSticky : Option (Option Bool) := none

/-- The `addChatMessage` on an available store (default: `isSticky` false). -/
def addChatMessageCore (db : DB) (now : Nat) (data : InsertChatMessage) :
    DB × Nat :=
  let (t, i) := db.chatMessages.insertRow (fun i =>
    { id := i, sessionId := data.sessionId, messageType := data.messageType,
      characterLabel := data.characterLabel,
      characterName := data.characterName, content := data.content,
      isSticky := data.isSticky.getD (some false), createdAt := now })
  ({ db with chatMessages := t }, i)

/-- The `addChatMessage`: raises when the store is unavailable. -/
def addChatMessage (db? : Option DB) (now : Nat) (data : InsertChatMessage) :
    Except String (DB × Nat) :=
  match db? with
  | none => .error "Database not available"
  | some db => .ok (addChatMessageCore db now data)

/-- The `getChatMessages` on an available store: filtered by session id (no
owner filter), ascending `createdAt`. -/
def getChatMessagesCore (db : DB) (sessionId : Nat) : List ChatMessageRow :=
  sqlOrderBy (fun r => some (r.createdAt : Int))
    (db.chatMessages.rows.filter (fun r => r.sessionId == sessionId))

/-- The `getChatMessages`: empty when the store is unavailable. -/
def getChatMessages (db? : Option DB) (sessionId : Nat) : List ChatMessageRow :=
  match db? with
  | none => []
  | some db => getChatMessagesCore db sessionId

/-- The `deleteChatMessage` on an available store: filtered by the row id alone
(no owner filter in the source). -/
def deleteChatMessageCore (db : DB) (id : Nat) : DB :=
  { db with chatMessages := { db.chatMessages with
      rows := db.chatMessages.rows.filter (fun r => !(r.id == id)) } }

/-- The `deleteChatMessage`: silently returns when the store is unavailable. -/
def deleteChatMessage (db? : Option DB) (id : Nat) : Option DB :=
  match db? with
  | none => none
  | some db => some (deleteChatMessageCore db id)

/-- The `chat.deleteMessage` router procedure: the authenticated caller's id
is available in the context but is not passed to the delete. -/
def chatDeleteMessage (db? : Option DB) (_callerUserId : Nat) (id : Nat) :
    Option DB :=
  deleteChatMessage db? id

/-! ## Story helpers -/

/-- The `InsertStory` payload. -/
structure InsertStory where
  userId : Nat
  title : String
  plotDescription : Option String := none
  styleDescription : Option String := none
  content : Option (Option String) := none
  modelId : Option (Option String) := none
  samplingParams : Option String := none

/-- The `Partial InsertStory` update payload as supplied by the update router. -/
structure StoryUpdate where
  title : Option String := none
  plotDescription : Option (Option String) := none
  styleDescription : Option (Option String) := none
  content : Option (Option String) := none
  modelId : Option (Option String) := none
  samplingParams : Option (Option String) := none

/-- Drizzle `.set` semantics for stories. -/
def applyStorySet (d : StoryUpdate) (now : Nat) (r : StoryRow) : StoryRow :=
  { r with
    title := d.title.getD r.title
    plotDescription := d.plotDescription.getD r.plotDescription
    styleDescription := d.styleDescription.getD r.styleDescription
    content := d.content.getD r.content
    modelId := d.modelId.getD r.modelId
    samplingParams := d.samplingParams.getD r.samplingParams
    updatedAt := now }

/-- The `createStory` on an available store (defaulted column: `modelId` falls
back to `"lucid-v1-medium"`). -/
def createStoryCore (db : DB) (now : Nat) (data : InsertStory) : DB × Nat :=
  let (t, i) := db.stories.insertRow (fun i =>
    { id := i, userId := data.userId, title := data.title,
      plotDescription := data.plotDescription,
      styleDescription := data.styleDescription,
      content := data.content.getD none,
      modelId := data.modelId.getD (some "lucid-v1-medium"),
      samplingParams := data.samplingParams,
      createdAt := now, updatedAt := now })
  ({ db with stories := t }, i)

/-- The `createStory`: raises when the store is unavailable. -/
def createStory (db? : Option DB) (now : Nat) (data : InsertStory) :
    Except String (DB × Nat) :=
  match db? with
  | none => .error "Database not available"
  | some db => .ok (createStoryCore db now data)

/-- The `getStoriesByUserId` on an available store: owner-filtered, most
recently updated first. -/
def getStoriesByUserIdCore (db : DB) (userId : Nat) : List StoryRow :=
  sqlOrderBy (fun r => some (-(r.updatedAt : Int)))
    (db.stories.rows.filter (fun r => r.userId == userId))

/-- The `getStoriesByUserId`: empty when the store is unavailable. -/
def getStoriesByUserId (db? : Option DB) (userId : Nat) : List StoryRow :=
  match db? with
  | none => []
  | some db => getStoriesByUserIdCore db userId

/-- The `getStoryById` on an available store: filtered by row id and owner. -/
def getStoryByIdCore (db : DB) (id userId : Nat) : Option StoryRow :=
  db.stories.rows.find? (fun r => r.id == id && r.userId == userId)

/-- The `getStoryById`: absent when the store is unavailable. -/
def getStoryById (db? : Option DB) (id userId : Nat) : Option StoryRow :=
  match db? with
  | none => none
  | some db => getStoryByIdCore db id userId

/-- The `updateStory` on an available store: filtered by row id and owner. -/
def updateStoryCore (db : DB) (id userId : Nat) (data : StoryUpdate)
    (now : Nat) : DB :=
  { db with stories := { db.stories with
      rows := db.stories.rows.map (fun r =>
        if r.id == id && r.userId == userId then applyStorySet data now r
        else r) } }

/-- The `updateStory`: silently returns when the store is unavailable. -/
def updateStory (db? : Option DB) (id userId : Nat) (data : StoryUpdate)
    (now : Nat) : Option DB :=
  match db? with
  | none => none
  | some db => some (updateStoryCore db id userId data now)

/-- The `deleteStory` on an available store: deletes the child story characters
matching the story id (no owner filter on the children), then the story row
filtered by id and owner. -/
def deleteStoryCore (db : DB) (id userId : Nat) : DB :=
  { db with
    storyCharacters := { db.storyCharacters with
      rows := db.storyCharacters.rows.filter (fun r => !(r.storyId == id)) }
    stories := { db.stories with
      rows := db.stories.rows.filter (fun r =>
        !(r.id == id && r.userId == userId)) } }

/-- The `deleteStory`: silently returns when the store is unavailable. -/
def deleteStory (db? : Option DB) (id userId : Nat) : Option DB :=
  match db? with
  | none => none
  | some db => some (deleteStoryCore db id userId)

/-- The `InsertStoryCharacter` payload. -/
structure InsertStoryCharacter where
  storyId : Nat
  name : String
  description : Option String := none
  orderIndex : Option (Option Int) := none

/-- The `Partial InsertStoryCharacter` update payload. -/
structure StoryCharacterUpdate where
  name : Option String := none
  description : Option (Option String) := none
  orderIndex : Option (Option Int) := none

/-- Drizzle `.set` semantics for story characters (no `updatedAt` column on
this table). -/
def applyStoryCharacterSet (d : StoryCharacterUpdate) (r : StoryCharacterRow) :
    StoryCharacterRow :=
  { r with
    name := d.name.getD r.name
    description := d.description.getD r.description
    orderIndex := d.orderIndex.getD r.orderIndex }

/-- The `addStoryCharacter` on an available store (default: `orderIndex` 0). -/
def addStoryCharacterCore (db : DB) (data : InsertStoryCharacter) : DB × Nat :=
  let (t, i) := db.storyCharacters.insertRow (fun i =>
    { id := i, storyId := data.storyId, name := data.name,
      description := data.description,
      orderIndex := data.orderIndex.getD (some 0) })
  ({ db with storyCharacters := t }, i)

/-- The `addStoryCharacter`: raises when the store is unavailable. -/
def addStoryCharacter (db? : Option DB) (data : InsertStoryCharacter) :
    Except String (DB × Nat) :=
  match db? with
  | none => .error "Database not available"
  | some db => .ok (addStoryCharacterCore db data)

/-- The `getStoryCharacters` on an available store: filtered by story id (no
owner filter), ascending `orderIndex`. -/
def getStoryCharactersCore (db : DB) (storyId : Nat) : List StoryCharacterRow :=
  sqlOrderBy (fun r => r.orderIndex)
    (db.storyCharacters.rows.filter (fun r => r.storyId == storyId))

/-- The `getStoryCharacters`: empty when the store is unavailable. -/
def getStoryCharacters (db? : Option DB) (storyId : Nat) :
    List StoryCharacterRow :=
  match db? with
  | none => []
  | some db => getStoryCharactersCore db storyId

/-- The `updateStoryCharacter` on an available store: filtered by the row id
alone (no owner filter in the source). -/
def updateStoryCharacterCore (db : DB) (id : Nat) (data : StoryCharacterUpdate) :
    DB :=
  { db with storyCharacters := { db.storyCharacters with
      rows := db.storyCharacters.rows.map (fun r =>
        if r.id == id then applyStoryCharacterSet data r else r) } }

/-- The `updateStoryCharacter`: silently returns when the store is unavailable. -/
def updateStoryCharacter (db? : Option DB) (id : Nat)
    (data : StoryCharacterUpdate) : Option DB :=
  match db? with
  | none => none
  | some db => some (updateStoryCharacterCore db id data)

/-- The `deleteStoryCharacter` on an available store: filtered by the row id
alone (no owner filter in the source). -/
def deleteStoryCharacterCore (db : DB) (id : Nat) : DB :=
  { db with storyCharacters := { db.storyCharacters with
      rows := db.storyCharacters.rows.filter (fun r => !(r.id == id)) } }

/-- The `deleteStoryCharacter`: silently returns when the store is unavailable. -/
def deleteStoryCharacter (db? : Option DB) (id : Nat) : Option DB :=
  match db? with
  | none => none
  | some db => some (deleteStoryCharacterCore db id)

/-! ## Generated image helpers -/

/-- The `InsertGeneratedImage` payload (`aspect` models the `aspectRatio`
column). -/
structure InsertGeneratedImage where
  userId : Nat
  includePrompt : String
  excludePrompt : Option String := none
  cfgScale : Option (Option Int) := none
  fidelity : Option (Option Int) := none
  aspect : Option (Option String) := none
  style : Option String := none
  seed : Option Int := none
  imageUrl : Option String := none

/-- The `createGeneratedImage` on an available store (defaults: `cfgScale` 7,
`fidelity` 30, `aspect` "square"). -/
def createGeneratedImageCore (db : DB) (now : Nat) (data : InsertGeneratedImage) :
    DB × Nat :=
  let (t, i) := db.generatedImages.insertRow (fun i =>
    { id := i, userId := data.userId, includePrompt := data.includePrompt,
      excludePrompt := data.excludePrompt,
      cfgScale := data.cfgScale.getD (some 7),
      fidelity := data.fidelity.getD (some 30),
      aspect := data.aspect.getD (some "square"),
      style := data.style, seed := data.seed, imageUrl := data.imageUrl,
      createdAt := now })
  ({ db with generatedImages := t }, i)

/-- The `createGeneratedImage`: raises when the store is unavailable. -/
def createGeneratedImage (db? : Option DB) (now : Nat)
    (data : InsertGeneratedImage) : Except String (DB × Nat) :=
  match db? with
  | none => .error "Database not available"
  | some db => .ok (createGeneratedImageCore db now data)

/-- The `getGeneratedImagesByUserId` on an available store: owner-filtered, most
recently created first, truncated to `limit` rows (default 50). -/
def getGeneratedImagesByUserIdCore (db : DB) (userId : Nat) (limit : Nat) :
    List GeneratedImageRow :=
  (sqlOrderBy (fun r => some (-(r.createdAt : Int)))
    (db.generatedImages.rows.filter (fun r => r.userId == userId))).take limit

/-- The `getGeneratedImagesByUserId`: empty when the store is unavailable. -/
def getGeneratedImagesByUserId (db? : Option DB) (userId : Nat) (limit : Nat) :
    List GeneratedImageRow :=
  match db? with
  | none => []
  | some db => getGeneratedImagesByUserIdCore db userId limit

/-- The `deleteGeneratedImage` on an available store: filtered by row id and
owner. -/
def deleteGeneratedImageCore (db : DB) (id userId : Nat) : DB :=
  { db with generatedImages := { db.generatedImages with
      rows := db.generatedImages.rows.filter (fun r =>
        !(r.id == id && r.userId == userId)) } }

/-- The `deleteGeneratedImage`: silently returns when the store is unavailable. -/
def deleteGeneratedImage (db? : Option DB) (id userId : Nat) : Option DB :=
  match db? with
  | none => none
  | some db => some (deleteGeneratedImageCore db id userId)

/-! ## The `scenarios.copy` router procedure -/

/-- The copy loop over the source scenario's characters: each child is
re-inserted under the new scenario id through `addScenarioCharacter`,
passing `name`, `label`, `promptDescription`, `isUserCharacter`,
`orderIndex` — but not `characterId`. -/
def copyScenarioCharactersLoop (newId : Nat) :
    List ScenarioCharacterRow → DB → Except String DB
  | [], db => .ok db
  | c :: cs, db =>
    match addScenarioCharacter (some db)
      { scenarioId := newId, name := c.name, label := c.label,
        promptDescription := some c.promptDescription,
        isUserCharacter := some c.isUserCharacter,
        orderIndex := some c.orderIndex } with
    | .error e => .error e
    | .ok (db', _) => copyScenarioCharactersLoop newId cs db'

/-- The copy loop over the source scenario's interactions: each child is
re-inserted under the new scenario id through `addScenarioInteraction`,
passing every non-key column. -/
def copyScenarioInteractionsLoop (newId : Nat) :
    List ScenarioInteractionRow → DB → Except String DB
  | [], db => .ok db
  | c :: cs, db =>
    match addScenarioInteraction (some db)
      { scenarioId := newId, interactionType := c.interactionType,
        characterLabel := c.characterLabel, content := c.content,
        isSticky := some c.isSticky, orderIndex := some c.orderIndex } with
    | .error e => .error e
    | .ok (db', _) => copyScenarioInteractionsLoop newId cs db'

/-- The `scenarios.copy` router procedure: reads the source scenario (fails
with "Scenario not found" when absent, which also covers the unavailable
store), creates the clone owned by the caller with the `" (Copy)"` title
suffix and `isPublic` forced to false, then re-inserts the source's
characters and interactions under the new id. -/
def scenariosCopy (db? : Option DB) (callerUserId : Nat) (now : Nat)
    (id : Nat) : Except String (DB × Nat) :=
  match getScenarioById db? id with
  | none => .error "Scenario not found"
  | some scenario =>
    match createScenario db? now
      { userId := callerUserId, title := scenario.title ++ " (Copy)",
        promptDescription := some scenario.promptDescription,
        displayDescription := some scenario.displayDescription,
        imageUrl := some scenario.imageUrl,
        isPublic := some (some false) } with
    | .error e => .error e
    | .ok (db1, newId) =>
      match copyScenarioCharactersLoop newId
          (getScenarioCharacters (some db1) id) db1 with
      | .error e => .error e
      | .ok db2 =>
        match copyScenarioInteractionsLoop newId
            (getScenarioInteractions (some db2) id) db2 with
        | .error e => .error e
        | .ok db3 => .ok (db3, newId)

/-! ## Generic list helpers -/

theorem list_map_fix {α : Type} (l : List α) (f : α → α)
    (h : ∀ a ∈ l, f a = a) : l.map f = l := by
  induction l with
  | nil => rfl
  | cons a as ih =>
    rw [List.map_cons, h a (by simp), ih (fun b hb => h b (by simp [hb]))]

theorem filter_not_filter {α : Type} (l : List α) (p : α → Bool) :
    (l.filter (fun a => !(p a))).filter p = [] := by
  induction l with
  | nil => rfl
  | cons a as ih => cases h : p a <;> simp [List.filter_cons, h, ih]

theorem forall2_map_self {α : Type} {R : α → α → Prop} (l : List α) (f : α → α)
    (h : ∀ a ∈ l, R a (f a)) : List.Forall₂ R l (l.map f) := by
  induction l with
  | nil => exact List.Forall₂.nil
  | cons a as ih =>
    exact List.Forall₂.cons (h a (by simp)) (ih fun b hb => h b (by simp [hb]))

/-! ## Claim theorems -/

/-- C6.  When the store connection is unavailable, every list operation
returns the empty sequence, every get operation returns absent, every
create operation raises the "Database not available" error, and every
update and delete operation silently returns, leaving the unavailable
store as is: reads degrade silently while writes that need a result fail
loudly. -/
theorem store_unavailable_asymmetry :
    (∀ now d, createApiKey none now d = .error "Database not available") ∧
    (∀ now d, createCharacter none now d = .error "Database not available") ∧
    (∀ now d, createScenario none now d = .error "Database not available") ∧
    (∀ d, addScenarioCharacter none d = .error "Database not available") ∧
    (∀ d, addScenarioInteraction none d = .error "Database not available") ∧
    (∀ now d, createChatSession none now d = .error "Database not available") ∧
    (∀ now d, addChatMessage none now d = .error "Database not available") ∧
    (∀ now d, createStory none now d = .error "Database not available") ∧
    (∀ d, addStoryCharacter none d = .error "Database not available") ∧
    (∀ now d, createGeneratedImage none now d = .error "Database not available") ∧
    (∀ u, getApiKeysByUserId none u = []) ∧
    (∀ u, getCharactersByUserId none u = []) ∧
    (∀ u, getScenariosByUserId none u = []) ∧
    (∀ q, getPublicScenarios none q = []) ∧
    (∀ s, getScenarioCharacters none s = []) ∧
    (∀ s, getScenarioInteractions none s = []) ∧
    (∀ u, getChatSessionsByUserId none u = []) ∧
    (∀ s, getChatMessages none s = []) ∧
    (∀ u, getStoriesByUserId none u = []) ∧
    (∀ s, getStoryCharacters none s = []) ∧
    (∀ u lim, getGeneratedImagesByUserId none u lim = []) ∧
    (∀ o, getUserByOpenId none o = none) ∧
    (∀ i u, getApiKeyById none i u = none) ∧
    (∀ i u, getCharacterById none i u = none) ∧
    (∀ i, getScenarioById none i = none) ∧
    (∀ i u, getChatSessionById none i u = none) ∧
    (∀ i u, getStoryById none i u = none) ∧
    (∀ now i, updateApiKeyLastUsed none now i = none) ∧
    (∀ i u d now, updateCharacter none i u d now = none) ∧
    (∀ i u d now, updateScenario none i u d now = none) ∧
    (∀ i d, updateScenarioInteraction none i d = none) ∧
    (∀ i u d now, updateChatSession none i u d now = none) ∧
    (∀ i u d now, updateStory none i u d now = none) ∧
    (∀ i d, updateStoryCharacter none i d = none) ∧
    (∀ i u, deleteApiKey none i u = none) ∧
    (∀ i u, deleteCharacter none i u = none) ∧
    (∀ i u, deleteScenario none i u = none) ∧
    (∀ i, deleteScenarioCharacter none i = none) ∧
    (∀ i, deleteScenarioInteraction none i = none) ∧
    (∀ i u, deleteChatSession none i u = none) ∧
    (∀ i, deleteChatMessage none i = none) ∧
    (∀ i u, deleteStory none i u = none) ∧
    (∀ i, deleteStoryCharacter none i = none) ∧
    (∀ i u, deleteGeneratedImage none i u = none) := by
  repeat' constructor
  all_goals intros
  all_goals rfl

/-- C3.  For Scenario, ChatSession, and Story, the cascading delete removes
every row of each declared child table matching the parent id before the
parent row: after a completed delete no child row referencing the deleted
parent id remains, and no parent row matching both the id and the caller's
user id remains. -/
theorem cascadeDelete_no_orphans (db : DB) (id userId : Nat) :
    (deleteScenarioCore db id userId).scenarioInteractions.rows.filter
        (fun r => r.scenarioId == id) = [] ∧
    (deleteScenarioCore db id userId).scenarioCharacters.rows.filter
        (fun r => r.scenarioId == id) = [] ∧
    (deleteScenarioCore db id userId).scenarios.rows.filter
        (fun r => r.id == id && r.userId == userId) = [] ∧
    (deleteChatSessionCore db id userId).chatMessages.rows.filter
        (fun r => r.sessionId == id) = [] ∧
    (deleteChatSessionCore db id userId).chatSessions.rows.filter
        (fun r => r.id == id && r.userId == userId) = [] ∧
    (deleteStoryCore db id userId).storyCharacters.rows.filter
        (fun r => r.storyId == id) = [] ∧
    (deleteStoryCore db id userId).stories.rows.filter
        (fun r => r.id == id && r.userId == userId) = [] :=
  ⟨filter_not_filter _ _, filter_not_filter _ _, filter_not_filter _ _,
   filter_not_filter _ _, filter_not_filter _ _, filter_not_filter _ _,
   filter_not_filter _ _⟩

/-- C9.  The child-row deletions inside `deleteScenario`, `deleteChatSession`
and `deleteStory` filter only by the parent id, not by the caller's user id:
invoking one of these deletes with a user id that does not own the parent
still removes every child row referencing the parent id, while the parent
row itself survives the delete. -/
theorem childDelete_ignores_owner (db : DB) (ownerId callerId : Nat)
    (hne : ownerId ≠ callerId)
    (sid : Nat) (s : ScenarioRow) (hs : s ∈ db.scenarios.rows)
    (hsid : s.id = sid) (hsown : s.userId = ownerId)
    (cid : Nat) (c : ChatSessionRow) (hc : c ∈ db.chatSessions.rows)
    (hcid : c.id = cid) (hcown : c.userId = ownerId)
    (tid : Nat) (t : StoryRow) (ht : t ∈ db.stories.rows)
    (htid : t.id = tid) (htown : t.userId = ownerId) :
    (deleteScenarioCore db sid callerId).scenarioCharacters.rows.filter
        (fun r => r.scenarioId == sid) = [] ∧
    (deleteScenarioCore db sid callerId).scenarioInteractions.rows.filter
        (fun r => r.scenarioId == sid) = [] ∧
    s ∈ (deleteScenarioCore db sid callerId).scenarios.rows ∧
    (deleteChatSessionCore db cid callerId).chatMessages.rows.filter
        (fun r => r.sessionId == cid) = [] ∧
    c ∈ (deleteChatSessionCore db cid callerId).chatSessions.rows ∧
    (deleteStoryCore db tid callerId).storyCharacters.rows.filter
        (fun r => r.storyId == tid) = [] ∧
    t ∈ (deleteStoryCore db tid callerId).stories.rows := by
  refine ⟨filter_not_filter _ _, filter_not_filter _ _, ?_,
    filter_not_filter _ _, ?_, filter_not_filter _ _, ?_⟩
  · refine List.mem_filter.mpr ⟨hs, ?_⟩
    simp only [hsown, Bool.not_eq_true', Bool.and_eq_false_imp, beq_iff_eq,
      beq_eq_false_iff_ne]
    exact fun _ => hne
  · refine List.mem_filter.mpr ⟨hc, ?_⟩
    simp only [hcown, Bool.not_eq_true', Bool.and_eq_false_imp, beq_iff_eq,
      beq_eq_false_iff_ne]
    exact fun _ => hne
  · refine List.mem_filter.mpr ⟨ht, ?_⟩
    simp only [htown, Bool.not_eq_true', Bool.and_eq_false_imp, beq_iff_eq,
      beq_eq_false_iff_ne]
    exact fun _ => hne

/-- A store used to witness `childDelete_ignores_owner`: user 1 owns one
scenario, one chat session and one story, each with one child row. -/
def c9db : DB :=
  { emptyDB with
    scenarios := ⟨[⟨1, 1, "s", none, none, none, some false, 0, 0⟩], 2⟩
    scenarioCharacters := ⟨[⟨1, 1, none, "n", "a", none, some false, some 0⟩], 2⟩
    scenarioInteractions := ⟨[⟨1, 1, .text, none, "hi", some false, some 0⟩], 2⟩
    chatSessions := ⟨[⟨1, 1, none, "t", none, some "m", none, 0, 0⟩], 2⟩
    chatMessages := ⟨[⟨1, 1, .user, none, none, "hi", some false, 0⟩], 2⟩
    stories := ⟨[⟨1, 1, "t", none, none, none, some "m", none, 0, 0⟩], 2⟩
    storyCharacters := ⟨[⟨1, 1, "n", none, some 0⟩], 2⟩ }

/-- Witness for C9: user 2 deletes user 1's parents in `c9db`; every child
row is removed while each parent row survives. -/
theorem childDelete_ignores_owner_witness :
    (deleteScenarioCore c9db 1 2).scenarioCharacters.rows.filter
        (fun r => r.scenarioId == 1) = [] ∧
    (deleteScenarioCore c9db 1 2).scenarioInteractions.rows.filter
        (fun r => r.scenarioId == 1) = [] ∧
    (⟨1, 1, "s", none, none, none, some false, 0, 0⟩ : ScenarioRow) ∈
      (deleteScenarioCore c9db 1 2).scenarios.rows ∧
    (deleteChatSessionCore c9db 1 2).chatMessages.rows.filter
        (fun r => r.sessionId == 1) = [] ∧
    (⟨1, 1, none, "t", none, some "m", none, 0, 0⟩ : ChatSessionRow) ∈
      (deleteChatSessionCore c9db 1 2).chatSessions.rows ∧
    (deleteStoryCore c9db 1 2).storyCharacters.rows.filter
        (fun r => r.storyId == 1) = [] ∧
    (⟨1, 1, "t", none, none, none, some "m", none, 0, 0⟩ : StoryRow) ∈
      (deleteStoryCore c9db 1 2).stories.rows :=
  childDelete_ignores_owner c9db 1 2 (by decide)
    1 ⟨1, 1, "s", none, none, none, some false, 0, 0⟩ (by simp [c9db]) rfl rfl
    1 ⟨1, 1, none, "t", none, some "m", none, 0, 0⟩ (by simp [c9db]) rfl rfl
    1 ⟨1, 1, "t", none, none, none, some "m", none, 0, 0⟩ (by simp [c9db]) rfl rfl

/-- C10.  The API-key list operation projects only `id`, `keyName`,
`lastUsed` and `createdAt` and never reads the `encryptedKey` column: two
stores whose API-key tables agree on everything except the `encryptedKey`
values produce identical list results for every user. -/
theorem apiKeySummary_congr (userId : Nat) {l1 l2 : List ApiKeyRow}
    (h : List.Forall₂ (fun a b : ApiKeyRow =>
      a.id = b.id ∧ a.userId = b.userId ∧ a.keyName = b.keyName ∧
      a.lastUsed = b.lastUsed ∧ a.createdAt = b.createdAt) l1 l2) :
    (l1.filter (fun r => r.userId == userId)).map (fun r =>
      ({ id := r.id, keyName := r.keyName, lastUsed := r.lastUsed,
         createdAt := r.createdAt } : ApiKeySummary)) =
    (l2.filter (fun r => r.userId == userId)).map (fun r =>
      ({ id := r.id, keyName := r.keyName, lastUsed := r.lastUsed,
         createdAt := r.createdAt } : ApiKeySummary)) := by
  induction h with
  | nil => rfl
  | cons hab hrest ih =>
    obtain ⟨h1, h2, h3, h4, h5⟩ := hab
    simp only [List.filter_cons, h2]
    cases hu : _ == userId
    · simpa using ih
    · simp [ih, h1, h3, h4, h5]

/-- C10.  The API-key list operation projects only `id`, `keyName`,
`lastUsed` and `createdAt` and never reads the `encryptedKey` column: two
stores whose API-key tables agree on everything except the `encryptedKey`
values produce identical list results for every user. -/
theorem apiKeyList_excludes_encryptedKey (db1 db2 : DB) (userId : Nat)
    (h : List.Forall₂ (fun a b : ApiKeyRow =>
      a.id = b.id ∧ a.userId = b.userId ∧ a.keyName = b.keyName ∧
      a.lastUsed = b.lastUsed ∧ a.createdAt = b.createdAt)
      db1.apiKeys.rows db2.apiKeys.rows) :
    getApiKeysByUserId (some db1) userId = getApiKeysByUserId (some db2) userId :=
  apiKeySummary_congr userId h

/-- Witness for C10: two one-row stores that differ only in the stored
ciphertext produce the same API-key listing. -/
theorem apiKeyList_excludes_encryptedKey_witness :
    getApiKeysByUserId
        (some { emptyDB with apiKeys := ⟨[⟨1, 7, "k", "cipherA", none, 3⟩], 2⟩ }) 7 =
      getApiKeysByUserId
        (some { emptyDB with apiKeys := ⟨[⟨1, 7, "k", "cipherB", none, 3⟩], 2⟩ }) 7 :=
  apiKeyList_excludes_encryptedKey _ _ 7
    (List.Forall₂.cons (by exact ⟨rfl, rfl, rfl, rfl, rfl⟩) List.Forall₂.nil)

/-- C1 (amended).  For the repository operations that take both a row id and
the caller's user id — ApiKey get/delete, Character get/update/delete,
Scenario update/delete, ChatSession get/update/delete, Story
get/update/delete, GeneratedImage delete — a row owned by `u1` is unreachable
under a different caller `u2`: the gets return absent and the
updates/deletes leave the entity's table unchanged (for the cascading
deletes, the parent table unchanged).  `getScenarioById` stays
owner-agnostic, and the operations keyed by the row id alone
(`deleteChatMessage`, `deleteScenarioCharacter`, `updateScenarioInteraction`,
`deleteScenarioInteraction`, `updateStoryCharacter`, `deleteStoryCharacter`,
`updateApiKeyLastUsed`, and the cascade child deletions) are further
owner-agnostic exceptions. -/
theorem crossOwner_access_isolated (db : DB) (u1 u2 : Nat) (hne : u1 ≠ u2)
    (kid cid sid chid stid gid now : Nat) (d1 : CharacterUpdate)
    (d2 : ScenarioUpdate) (d3 : ChatSessionUpdate) (d4 : StoryUpdate)
    (hk : ∀ r ∈ db.apiKeys.rows, r.id = kid → r.userId = u1)
    (hc : ∀ r ∈ db.characters.rows, r.id = cid → r.userId = u1)
    (hs : ∀ r ∈ db.scenarios.rows, r.id = sid → r.userId = u1)
    (hch : ∀ r ∈ db.chatSessions.rows, r.id = chid → r.userId = u1)
    (hst : ∀ r ∈ db.stories.rows, r.id = stid → r.userId = u1)
    (hg : ∀ r ∈ db.generatedImages.rows, r.id = gid → r.userId = u1) :
    getApiKeyByIdCore db kid u2 = none ∧
    (deleteApiKeyCore db kid u2).apiKeys.rows = db.apiKeys.rows ∧
    getCharacterByIdCore db cid u2 = none ∧
    (updateCharacterCore db cid u2 d1 now).characters.rows =
      db.characters.rows ∧
    (deleteCharacterCore db cid u2).characters.rows = db.characters.rows ∧
    (updateScenarioCore db sid u2 d2 now).scenarios.rows =
      db.scenarios.rows ∧
    (deleteScenarioCore db sid u2).scenarios.rows = db.scenarios.rows ∧
    getChatSessionByIdCore db chid u2 = none ∧
    (updateChatSessionCore db chid u2 d3 now).chatSessions.rows =
      db.chatSessions.rows ∧
    (deleteChatSessionCore db chid u2).chatSessions.rows =
      db.chatSessions.rows ∧
    getStoryByIdCore db stid u2 = none ∧
    (updateStoryCore db stid u2 d4 now).stories.rows = db.stories.rows ∧
    (deleteStoryCore db stid u2).stories.rows = db.stories.rows ∧
    (deleteGeneratedImageCore db gid u2).generatedImages.rows =
      db.generatedImages.rows := by
  have key : ∀ {β : Type} (idOf ownOf : β → Nat) (l : List β) (i : Nat),
      (∀ r ∈ l, idOf r = i → ownOf r = u1) →
      ∀ r ∈ l, (idOf r == i && ownOf r == u2) = false := by
    intro β idOf ownOf l i hall r hr
    cases hid : idOf r == i
    · simp
    · have h1 : ownOf r = u1 := hall r hr (by simpa using hid)
      simp only [hid, h1, Bool.true_and, beq_eq_false_iff_ne]
      exact hne
  refine ⟨?_, ?_, ?_, ?_, ?_, ?_, ?_, ?_, ?_, ?_, ?_, ?_, ?_, ?_⟩
  · exact List.find?_eq_none.mpr (fun r hr => by
      simp [key (fun r : ApiKeyRow => r.id) (fun r => r.userId) _ kid hk r hr])
  · exact List.filter_eq_self.mpr (fun r hr => by
      simp [key (fun r : ApiKeyRow => r.id) (fun r => r.userId) _ kid hk r hr])
  · exact List.find?_eq_none.mpr (fun r hr => by
      simp [key (fun r : CharacterRow => r.id) (fun r => r.userId) _ cid hc r hr])
  · exact list_map_fix _ _ (fun r hr => by
      simp [key (fun r : CharacterRow => r.id) (fun r => r.userId) _ cid hc r hr])
  · exact List.filter_eq_self.mpr (fun r hr => by
      simp [key (fun r : CharacterRow => r.id) (fun r => r.userId) _ cid hc r hr])
  · exact list_map_fix _ _ (fun r hr => by
      simp [key (fun r : ScenarioRow => r.id) (fun r => r.userId) _ sid hs r hr])
  · exact List.filter_eq_self.mpr (fun r hr => by
      simp [key (fun r : ScenarioRow => r.id) (fun r => r.userId) _ sid hs r hr])
  · exact List.find?_eq_none.mpr (fun r hr => by
      simp [key (fun r : ChatSessionRow => r.id) (fun r => r.userId) _ chid hch r hr])
  · exact list_map_fix _ _ (fun r hr => by
      simp [key (fun r : ChatSessionRow => r.id) (fun r => r.userId) _ chid hch r hr])
  · exact List.filter_eq_self.mpr (fun r hr => by
      simp [key (fun r : ChatSessionRow => r.id) (fun r => r.userId) _ chid hch r hr])
  · exact List.find?_eq_none.mpr (fun r hr => by
      simp [key (fun r : StoryRow => r.id) (fun r => r.userId) _ stid hst r hr])
  · exact list_map_fix _ _ (fun r hr => by
      simp [key (fun r : StoryRow => r.id) (fun r => r.userId) _ stid hst r hr])
  · exact List.filter_eq_self.mpr (fun r hr => by
      simp [key (fun r : StoryRow => r.id) (fun r => r.userId) _ stid hst r hr])
  · exact List.filter_eq_self.mpr (fun r hr => by
      simp [key (fun r : GeneratedImageRow => r.id) (fun r => r.userId) _ gid hg r hr])

/-- A store for the C1 witness: user 1 owns one row in each top-level
table. -/
def c1db : DB :=
  { emptyDB with
    apiKeys := ⟨[⟨1, 1, "k", "c", none, 0⟩], 2⟩
    characters := ⟨[⟨1, 1, "n", "a", none, none, none, some false, 0, 0⟩], 2⟩
    scenarios := ⟨[⟨1, 1, "s", none, none, none, some false, 0, 0⟩], 2⟩
    chatSessions := ⟨[⟨1, 1, none, "t", none, some "m", none, 0, 0⟩], 2⟩
    stories := ⟨[⟨1, 1, "t", none, none, none, some "m", none, 0, 0⟩], 2⟩
    generatedImages :=
      ⟨[⟨1, 1, "p", none, some 7, some 30, some "square", none, none, none, 0⟩], 2⟩ }

/-- Witness for C1: in `c1db` every dual-filtered operation invoked by user 2
against user 1's rows returns absent or leaves the table unchanged. -/
theorem crossOwner_access_isolated_witness :
    getApiKeyByIdCore c1db 1 2 = none ∧
    (deleteApiKeyCore c1db 1 2).apiKeys.rows = c1db.apiKeys.rows ∧
    getCharacterByIdCore c1db 1 2 = none ∧
    (updateCharacterCore c1db 1 2 {} 9).characters.rows = c1db.characters.rows ∧
    (deleteCharacterCore c1db 1 2).characters.rows = c1db.characters.rows ∧
    (updateScenarioCore c1db 1 2 {} 9).scenarios.rows = c1db.scenarios.rows ∧
    (deleteScenarioCore c1db 1 2).scenarios.rows = c1db.scenarios.rows ∧
    getChatSessionByIdCore c1db 1 2 = none ∧
    (updateChatSessionCore c1db 1 2 {} 9).chatSessions.rows =
      c1db.chatSessions.rows ∧
    (deleteChatSessionCore c1db 1 2).chatSessions.rows =
      c1db.chatSessions.rows ∧
    getStoryByIdCore c1db 1 2 = none ∧
    (updateStoryCore c1db 1 2 {} 9).stories.rows = c1db.stories.rows ∧
    (deleteStoryCore c1db 1 2).stories.rows = c1db.stories.rows ∧
    (deleteGeneratedImageCore c1db 1 2).generatedImages.rows =
      c1db.generatedImages.rows :=
  crossOwner_access_isolated c1db 1 2 (by decide) 1 1 1 1 1 1 9 {} {} {} {}
    (by decide) (by decide) (by decide) (by decide) (by decide) (by decide)

/-- A store for the C1 counterexample: a chat message in a session owned by
user 1. -/
def c1msgdb : DB :=
  { emptyDB with
    chatSessions := ⟨[⟨1, 1, none, "t", none, some "m", none, 0, 0⟩], 2⟩
    chatMessages := ⟨[⟨10, 1, .user, none, none, "hi", some false, 0⟩], 11⟩ }

/-- Counterexample for C1 as stated: the message with id 10 belongs to user
1's session, yet the `chat.deleteMessage` router procedure invoked by user 2
deletes it outright — success rather than NotFound or a no-op, so
`Scenario.getById` is not the sole owner-agnostic exception. -/
theorem crossOwner_claim_counterexample :
    c1msgdb.chatMessages.rows.length = 1 ∧
    (chatDeleteMessage (some c1msgdb) 2 10).map
      (fun d => d.chatMessages.rows) = some [] :=
  ⟨rfl, rfl⟩

/-- C7.  Partial-field updates change only the fields the caller supplied:
for each updatable entity, a field left undefined in the payload keeps its
stored value, a field explicitly supplied (even with an empty or null
value) overwrites it, and positionally every row of the table that does not
match both the row id and the caller's user id is left untouched. -/
theorem suppliedFieldUpdate_frame (db : DB) (id userId now : Nat)
    (dc : CharacterUpdate) (ds : ScenarioUpdate) (dh : ChatSessionUpdate)
    (dt : StoryUpdate) (r : CharacterRow) (s : ScenarioRow)
    (h : ChatSessionRow) (t : StoryRow) :
    (dc.name = none → (applyCharacterSet dc now r).name = r.name) ∧
    (∀ v, dc.name = some v → (applyCharacterSet dc now r).name = v) ∧
    (dc.label = none → (applyCharacterSet dc now r).label = r.label) ∧
    (∀ v, dc.label = some v → (applyCharacterSet dc now r).label = v) ∧
    (dc.promptDescription = none →
      (applyCharacterSet dc now r).promptDescription = r.promptDescription) ∧
    (∀ v, dc.promptDescription = some v →
      (applyCharacterSet dc now r).promptDescription = v) ∧
    (dc.displayDescription = none →
      (applyCharacterSet dc now r).displayDescription = r.displayDescription) ∧
    (∀ v, dc.displayDescription = some v →
      (applyCharacterSet dc now r).displayDescription = v) ∧
    (dc.imageUrl = none → (applyCharacterSet dc now r).imageUrl = r.imageUrl) ∧
    (∀ v, dc.imageUrl = some v → (applyCharacterSet dc now r).imageUrl = v) ∧
    (dc.isUserCharacter = none →
      (applyCharacterSet dc now r).isUserCharacter = r.isUserCharacter) ∧
    (∀ v, dc.isUserCharacter = some v →
      (applyCharacterSet dc now r).isUserCharacter = v) ∧
    (ds.title = none → (applyScenarioSet ds now s).title = s.title) ∧
    (∀ v, ds.title = some v → (applyScenarioSet ds now s).title = v) ∧
    (ds.promptDescription = none →
      (applyScenarioSet ds now s).promptDescription = s.promptDescription) ∧
    (∀ v, ds.promptDescription = some v →
      (applyScenarioSet ds now s).promptDescription = v) ∧
    (ds.displayDescription = none →
      (applyScenarioSet ds now s).displayDescription = s.displayDescription) ∧
    (∀ v, ds.displayDescription = some v →
      (applyScenarioSet ds now s).displayDescription = v) ∧
    (ds.imageUrl = none → (applyScenarioSet ds now s).imageUrl = s.imageUrl) ∧
    (∀ v, ds.imageUrl = some v → (applyScenarioSet ds now s).imageUrl = v) ∧
    (ds.isPublic = none → (applyScenarioSet ds now s).isPublic = s.isPublic) ∧
    (∀ v, ds.isPublic = some v → (applyScenarioSet ds now s).isPublic = v) ∧
    (dh.title = none → (applyChatSessionSet dh now h).title = h.title) ∧
    (∀ v, dh.title = some v → (applyChatSessionSet dh now h).title = v) ∧
    (dh.systemPrompt = none →
      (applyChatSessionSet dh now h).systemPrompt = h.systemPrompt) ∧
    (∀ v, dh.systemPrompt = some v →
      (applyChatSessionSet dh now h).systemPrompt = v) ∧
    (dh.modelId = none → (applyChatSessionSet dh now h).modelId = h.modelId) ∧
    (∀ v, dh.modelId = some v → (applyChatSessionSet dh now h).modelId = v) ∧
    (dh.samplingParams = none →
      (applyChatSessionSet dh now h).samplingParams = h.samplingParams) ∧
    (∀ v, dh.samplingParams = some v →
      (applyChatSessionSet dh now h).samplingParams = v) ∧
    (dt.title = none → (applyStorySet dt now t).title = t.title) ∧
    (∀ v, dt.title = some v → (applyStorySet dt now t).title = v) ∧
    (dt.plotDescription = none →
      (applyStorySet dt now t).plotDescription = t.plotDescription) ∧
    (∀ v, dt.plotDescription = some v →
      (applyStorySet dt now t).plotDescription = v) ∧
    (dt.styleDescription = none →
      (applyStorySet dt now t).styleDescription = t.styleDescription) ∧
    (∀ v, dt.styleDescription = some v →
      (applyStorySet dt now t).styleDescription = v) ∧
    (dt.content = none → (applyStorySet dt now t).content = t.content) ∧
    (∀ v, dt.content = some v → (applyStorySet dt now t).content = v) ∧
    (dt.modelId = none → (applyStorySet dt now t).modelId = t.modelId) ∧
    (∀ v, dt.modelId = some v → (applyStorySet dt now t).modelId = v) ∧
    (dt.samplingParams = none →
      (applyStorySet dt now t).samplingParams = t.samplingParams) ∧
    (∀ v, dt.samplingParams = some v →
      (applyStorySet dt now t).samplingParams = v) ∧
    List.Forall₂ (fun old new : CharacterRow =>
        (old.id == id && old.userId == userId) = false → new = old)
      db.characters.rows (updateCharacterCore db id userId dc now).characters.rows ∧
    List.Forall₂ (fun old new : ScenarioRow =>
        (old.id == id && old.userId == userId) = false → new = old)
      db.scenarios.rows (updateScenarioCore db id userId ds now).scenarios.rows ∧
    List.Forall₂ (fun old new : ChatSessionRow =>
        (old.id == id && old.userId == userId) = false → new = old)
      db.chatSessions.rows
      (updateChatSessionCore db id userId dh now).chatSessions.rows ∧
    List.Forall₂ (fun old new : StoryRow =>
        (old.id == id && old.userId == userId) = false → new = old)
      db.stories.rows (updateStoryCore db id userId dt now).stories.rows :=
  ⟨fun e => by simp [applyCharacterSet, e],
   fun v e => by simp [applyCharacterSet, e],
   fun e => by simp [applyCharacterSet, e],
   fun v e => by simp [applyCharacterSet, e],
   fun e => by simp [applyCharacterSet, e],
   fun v e => by simp [applyCharacterSet, e],
   fun e => by simp [applyCharacterSet, e],
   fun v e => by simp [applyCharacterSet, e],
   fun e => by simp [applyCharacterSet, e],
   fun v e => by simp [applyCharacterSet, e],
   fun e => by simp [applyCharacterSet, e],
   fun v e => by simp [applyCharacterSet, e],
   fun e => by simp [applyScenarioSet, e],
   fun v e => by simp [applyScenarioSet, e],
   fun e => by simp [applyScenarioSet, e],
   fun v e => by simp [applyScenarioSet, e],
   fun e => by simp [applyScenarioSet, e],
   fun v e => by simp [applyScenarioSet, e],
   fun e => by simp [applyScenarioSet, e],
   fun v e => by simp [applyScenarioSet, e],
   fun e => by simp [applyScenarioSet, e],
   fun v e => by simp [applyScenarioSet, e],
   fun e => by simp [applyChatSessionSet, e],
   fun v e => by simp [applyChatSessionSet, e],
   fun e => by simp [applyChatSessionSet, e],
   fun v e => by simp [applyChatSessionSet, e],
   fun e => by simp [applyChatSessionSet, e],
   fun v e => by simp [applyChatSessionSet, e],
   fun e => by simp [applyChatSessionSet, e],
   fun v e => by simp [applyChatSessionSet, e],
   fun e => by simp [applyStorySet, e],
   fun v e => by simp [applyStorySet, e],
   fun e => by simp [applyStorySet, e],
   fun v e => by simp [applyStorySet, e],
   fun e => by simp [applyStorySet, e],
   fun v e => by simp [applyStorySet, e],
   fun e => by simp [applyStorySet, e],
   fun v e => by simp [applyStorySet, e],
   fun e => by simp [applyStorySet, e],
   fun v e => by simp [applyStorySet, e],
   fun e => by simp [applyStorySet, e],
   fun v e => by simp [applyStorySet, e],
   forall2_map_self _ _ (fun a _ hf => by simp [hf]),
   forall2_map_self _ _ (fun a _ hf => by simp [hf]),
   forall2_map_self _ _ (fun a _ hf => by simp [hf]),
   forall2_map_self _ _ (fun a _ hf => by simp [hf])⟩

/-- Witness for C7: updating a scenario titled "orig" with an undefined
title leaves it unchanged, while updating with the explicitly supplied
empty title overwrites it to the empty string. -/
theorem suppliedFieldUpdate_frame_witness :
    (applyScenarioSet {} 9
      ⟨1, 1, "orig", none, none, none, some false, 0, 0⟩).title = "orig" ∧
    (applyScenarioSet { title := some "" } 9
      ⟨1, 1, "orig", none, none, none, some false, 0, 0⟩).title = "" := by
  have h1 := suppliedFieldUpdate_frame emptyDB 1 1 9 {} {} {} {}
    ⟨1, 1, "n", "a", none, none, none, some false, 0, 0⟩
    ⟨1, 1, "orig", none, none, none, some false, 0, 0⟩
    ⟨1, 1, none, "t", none, some "m", none, 0, 0⟩
    ⟨1, 1, "t", none, none, none, some "m", none, 0, 0⟩
  have h2 := suppliedFieldUpdate_frame emptyDB 1 1 9 {} { title := some "" } {} {}
    ⟨1, 1, "n", "a", none, none, none, some false, 0, 0⟩
    ⟨1, 1, "orig", none, none, none, some false, 0, 0⟩
    ⟨1, 1, none, "t", none, some "m", none, 0, 0⟩
    ⟨1, 1, "t", none, none, none, some "m", none, 0, 0⟩
  obtain ⟨-, -, -, -, -, -, -, -, -, -, -, -, hnone, -⟩ := h1
  obtain ⟨-, -, -, -, -, -, -, -, -, -, -, -, -, hsome, -⟩ := h2
  exact ⟨hnone rfl, hsome "" rfl⟩

/-- C4 (amended).  `upsertUser` builds its update set from the fields the
caller supplied among name, email, loginMethod, lastSignedIn and role,
treating an unsupplied (undefined) field as "leave unchanged" and writing a
supplied value exactly as supplied — an explicit null stays null, but other
falsy values such as the empty string are written as themselves, not
normalized to null.  In addition, when no role was supplied and the openId
equals the configured owner identity, `role = "admin"` is injected into the
update set; and when the accumulated update set would otherwise be empty it
is replaced by a `lastSignedIn = now` touch. -/
theorem upsertUser_updateSet_spec (env : Env) (now : Nat) (u : InsertUser) :
    (buildUpsert env now u).2.name = u.name ∧
    (buildUpsert env now u).2.email = u.email ∧
    (buildUpsert env now u).2.loginMethod = u.loginMethod ∧
    (buildUpsert env now u).2.role =
      (match u.role with
       | some r => some r
       | none => if u.openId = env.ownerOpenId then some "admin" else none) ∧
    (buildUpsert env now u).2.lastSignedIn =
      (if u.name = none ∧ u.email = none ∧ u.loginMethod = none ∧
          u.lastSignedIn = none ∧ u.role = none ∧ u.openId ≠ env.ownerOpenId
       then some now else u.lastSignedIn) := by
  cases hr : u.role <;> by_cases ho : u.openId = env.ownerOpenId <;>
    simp [buildUpsert, hr, ho] <;> split_ifs <;> simp_all

/-- Counterexample for C4 as stated: supplying the empty string for `name`
puts the empty string itself — not null — into the update set, because the
source normalizes with `value ?? null`, which only maps null to null. -/
theorem upsertUser_emptyString_counterexample :
    (buildUpsert ⟨"owner"⟩ 5 { openId := "x", name := some (some "") }).2.name =
      some (some "") ∧
    (buildUpsert ⟨"owner"⟩ 5 { openId := "x", name := some (some "") }).2.name ≠
      some none :=
  ⟨rfl, by decide⟩

theorem upsertUser_fresh (db : DB) (env : Env) (now : Nat) (u : InsertUser)
    (hne : ¬ u.openId = "")
    (hfr : db.users.rows.any (fun r => r.openId == u.openId) = false) :
    upsertUser (some db) env now u = .ok (some { db with users :=
      ⟨db.users.rows ++
        [{ id := db.users.nextId, openId := u.openId,
           name := (buildUpsert env now u).1.name.getD none,
           email := (buildUpsert env now u).1.email.getD none,
           loginMethod := (buildUpsert env now u).1.loginMethod.getD none,
           role := (buildUpsert env now u).1.role.getD "user",
           createdAt := now, updatedAt := now,
           lastSignedIn := (buildUpsert env now u).1.lastSignedIn.getD now }],
       db.users.nextId + 1⟩ }) := by
  rcases hb : buildUpsert env now u with ⟨values, upd⟩
  simp [upsertUser, if_neg hne, hfr, hb, Table.insertRow]

theorem upsertUser_existing (db : DB) (env : Env) (now : Nat) (u : InsertUser)
    (hne : ¬ u.openId = "")
    (hdup : db.users.rows.any (fun r => r.openId == u.openId) = true) :
    upsertUser (some db) env now u = .ok (some { db with users :=
      { db.users with rows := db.users.rows.map (fun r =>
          if r.openId == u.openId then
            applyUserUpdateSet (buildUpsert env now u).2 now r
          else r) } }) := by
  rcases hb : buildUpsert env now u with ⟨values, upd⟩
  simp [upsertUser, if_neg hne, hdup, hb]

/-- C5 (amended).  For an identity containing only an `openId` (and a store
holding no row for it yet), the first `upsertUser` call inserts exactly one
row — role `"user"`, or `"admin"` when the openId equals the configured
owner identity, with `lastSignedIn` set to the call instant — and the second
call updates the same single row without creating a duplicate.  For a
non-owner identity the second call's otherwise-empty update set is replaced
by a `lastSignedIn = now` touch, so `lastSignedIn` advances to the later
instant; for the owner identity the update set is `role = "admin"` instead,
so `lastSignedIn` is left at the first instant. -/
theorem upsertUser_twice_spec (db : DB) (env : Env) (x : String)
    (now1 now2 : Nat) (hx : ¬ x = "")
    (hfresh : ∀ r ∈ db.users.rows, r.openId ≠ x) (hlt : now1 < now2) :
    ∃ db1 db2,
      upsertUser (some db) env now1 { openId := x } = .ok (some db1) ∧
      upsertUser (some db1) env now2 { openId := x } = .ok (some db2) ∧
      db1.users.rows = db.users.rows ++
        [{ id := db.users.nextId, openId := x, name := none, email := none,
           loginMethod := none,
           role := if x = env.ownerOpenId then "admin" else "user",
           createdAt := now1, updatedAt := now1, lastSignedIn := now1 }] ∧
      db2.users.rows = db.users.rows ++
        [{ id := db.users.nextId, openId := x, name := none, email := none,
           loginMethod := none,
           role := if x = env.ownerOpenId then "admin" else "user",
           createdAt := now1, updatedAt := now2,
           lastSignedIn := if x = env.ownerOpenId then now1 else now2 }] ∧
      (¬ x = env.ownerOpenId →
        now1 < (if x = env.ownerOpenId then now1 else now2)) := by
  have hfr : db.users.rows.any (fun r => r.openId == x) = false :=
    List.any_eq_false.mpr (fun r hr => by simpa using hfresh r hr)
  have hmapfix : ∀ (g : UserRow → UserRow),
      db.users.rows.map (fun r => if r.openId == x then g r else r) =
        db.users.rows := by
    intro g
    exact list_map_fix _ _ (fun r hr => by
      simp [beq_eq_false_iff_ne.mpr (hfresh r hr)])
  by_cases ho : x = env.ownerOpenId
  · have hb1 : buildUpsert env now1 { openId := x } =
        ({ openId := x, lastSignedIn := some now1, role := some "admin" },
         { role := some "admin" }) := by
      simp [buildUpsert, ho]
    have hb2 : buildUpsert env now2 { openId := x } =
        ({ openId := x, lastSignedIn := some now2, role := some "admin" },
         { role := some "admin" }) := by
      simp [buildUpsert, ho]
    have e1 : upsertUser (some db) env now1 { openId := x } =
        .ok (some { db with users := ⟨db.users.rows ++
          [{ id := db.users.nextId, openId := x, name := none, email := none,
             loginMethod := none, role := "admin", createdAt := now1,
             updatedAt := now1, lastSignedIn := now1 }],
          db.users.nextId + 1⟩ }) := by
      rw [upsertUser_fresh db env now1 { openId := x } hx hfr, hb1]
      rfl
    have e2 : upsertUser (some { db with users := ⟨db.users.rows ++
          [{ id := db.users.nextId, openId := x, name := none, email := none,
             loginMethod := none, role := "admin", createdAt := now1,
             updatedAt := now1, lastSignedIn := now1 }],
          db.users.nextId + 1⟩ }) env now2 { openId := x } =
        .ok (some { db with users := ⟨db.users.rows ++
          [{ id := db.users.nextId, openId := x, name := none, email := none,
             loginMethod := none, role := "admin", createdAt := now1,
             updatedAt := now2, lastSignedIn := now1 }],
          db.users.nextId + 1⟩ }) := by
      rw [upsertUser_existing _ env now2 { openId := x } hx (by simp), hb2]
      simp only [List.map_append, List.map_cons, List.map_nil, hmapfix]
      simp [applyUserUpdateSet]
    exact ⟨_, _, e1, e2, by simp [ho], by simp [ho], fun hc => absurd ho hc⟩
  · have hb1 : buildUpsert env now1 { openId := x } =
        ({ openId := x, lastSignedIn := some now1 },
         { lastSignedIn := some now1 }) := by
      simp [buildUpsert, ho]
    have hb2 : buildUpsert env now2 { openId := x } =
        ({ openId := x, lastSignedIn := some now2 },
         { lastSignedIn := some now2 }) := by
      simp [buildUpsert, ho]
    have e1 : upsertUser (some db) env now1 { openId := x } =
        .ok (some { db with users := ⟨db.users.rows ++
          [{ id := db.users.nextId, openId := x, name := none, email := none,
             loginMethod := none, role := "user", createdAt := now1,
             updatedAt := now1, lastSignedIn := now1 }],
          db.users.nextId + 1⟩ }) := by
      rw [upsertUser_fresh db env now1 { openId := x } hx hfr, hb1]
      rfl
    have e2 : upsertUser (some { db with users := ⟨db.users.rows ++
          [{ id := db.users.nextId, openId := x, name := none, email := none,
             loginMethod := none, role := "user", createdAt := now1,
             updatedAt := now1, lastSignedIn := now1 }],
          db.users.nextId + 1⟩ }) env now2 { openId := x } =
        .ok (some { db with users := ⟨db.users.rows ++
          [{ id := db.users.nextId, openId := x, name := none, email := none,
             loginMethod := none, role := "user", createdAt := now1,
             updatedAt := now2, lastSignedIn := now2 }],
          db.users.nextId + 1⟩ }) := by
      rw [upsertUser_existing _ env now2 { openId := x } hx (by simp), hb2]
      simp only [List.map_append, List.map_cons, List.map_nil, hmapfix]
      simp [applyUserUpdateSet]
    exact ⟨_, _, e1, e2, by simp [ho], by simp [ho],
      fun _ => by simpa [ho] using hlt⟩

/-- Environment used by the C5 witness. -/
def envW : Env := ⟨"owner"⟩

/-- Witness for C5: a fresh non-owner identity upserted at instants 1 and 2
in an empty store. -/
theorem upsertUser_twice_spec_witness :
    ∃ db1 db2,
      upsertUser (some emptyDB) envW 1 { openId := "u" } = .ok (some db1) ∧
      upsertUser (some db1) envW 2 { openId := "u" } = .ok (some db2) ∧
      db1.users.rows = emptyDB.users.rows ++
        [{ id := emptyDB.users.nextId, openId := "u", name := none,
           email := none, loginMethod := none,
           role := if "u" = envW.ownerOpenId then "admin" else "user",
           createdAt := 1, updatedAt := 1, lastSignedIn := 1 }] ∧
      db2.users.rows = emptyDB.users.rows ++
        [{ id := emptyDB.users.nextId, openId := "u", name := none,
           email := none, loginMethod := none,
           role := if "u" = envW.ownerOpenId then "admin" else "user",
           createdAt := 1, updatedAt := 2,
           lastSignedIn := if "u" = envW.ownerOpenId then 1 else 2 }] ∧
      (¬ "u" = envW.ownerOpenId →
        1 < (if "u" = envW.ownerOpenId then 1 else 2)) :=
  upsertUser_twice_spec emptyDB envW "u" 1 2 (by decide)
    (fun r hr => absurd hr (by simp [emptyDB])) (by decide)

/-- Two consecutive `upsertUser` calls with the same identity. -/
def upsertTwice (db? : Option DB) (env : Env) (t1 t2 : Nat) (u : InsertUser) :
    Except String (Option DB) :=
  match upsertUser db? env t1 u with
  | .error e => .error e
  | .ok d1 => upsertUser d1 env t2 u

/-- Counterexample for C5 as stated: when the openId equals the configured
owner identity, the second call's update set is `role = "admin"` (not
empty), so `lastSignedIn` is not refreshed — after calls at instants 1 and
2 the single stored row still has `lastSignedIn = 1`, not a later
timestamp. -/
theorem upsertUser_twice_owner_counterexample :
    (upsertTwice (some emptyDB) ⟨"x"⟩ 1 2 { openId := "x" }).map
      (Option.map (fun d => d.users.rows.map
        (fun r => (r.role, r.lastSignedIn, decide (1 < r.lastSignedIn))))) =
      .ok (some [("admin", 1, false)]) := by
  rfl

theorem copyScenarioCharactersLoop_spec (newId : Nat)
    (cs : List ScenarioCharacterRow) :
    ∀ db : DB, ∃ db' copies,
      copyScenarioCharactersLoop newId cs db = .ok db' ∧
      db'.scenarioCharacters.rows = db.scenarioCharacters.rows ++ copies ∧
      List.Forall₂ (fun src cp : ScenarioCharacterRow =>
        cp.scenarioId = newId ∧ cp.characterId = none ∧ cp.name = src.name ∧
        cp.label = src.label ∧ cp.promptDescription = src.promptDescription ∧
        cp.isUserCharacter = src.isUserCharacter ∧
        cp.orderIndex = src.orderIndex) cs copies ∧
      db'.scenarios = db.scenarios ∧
      db'.scenarioInteractions = db.scenarioInteractions := by
  induction cs with
  | nil =>
    intro db
    exact ⟨db, [], rfl, by simp, List.Forall₂.nil, rfl, rfl⟩
  | cons c cs ih =>
    intro db
    obtain ⟨db', copies, h1, h2, h3, h4, h5⟩ :=
      ih (addScenarioCharacterCore db
        { scenarioId := newId, name := c.name, label := c.label,
          promptDescription := some c.promptDescription,
          isUserCharacter := some c.isUserCharacter,
          orderIndex := some c.orderIndex }).1
    refine ⟨db',
      ({ id := db.scenarioCharacters.nextId, scenarioId := newId,
         characterId := none, name := c.name, label := c.label,
         promptDescription := c.promptDescription,
         isUserCharacter := c.isUserCharacter,
         orderIndex := c.orderIndex } : ScenarioCharacterRow) :: copies,
      h1, ?_, List.Forall₂.cons ⟨rfl, rfl, rfl, rfl, rfl, rfl, rfl⟩ h3,
      h4, h5⟩
    rw [h2]
    simp [addScenarioCharacterCore, Table.insertRow]

theorem copyScenarioInteractionsLoop_spec (newId : Nat)
    (cs : List ScenarioInteractionRow) :
    ∀ db : DB, ∃ db' copies,
      copyScenarioInteractionsLoop newId cs db = .ok db' ∧
      db'.scenarioInteractions.rows = db.scenarioInteractions.rows ++ copies ∧
      List.Forall₂ (fun src cp : ScenarioInteractionRow =>
        cp.scenarioId = newId ∧ cp.interactionType = src.interactionType ∧
        cp.characterLabel = src.characterLabel ∧ cp.content = src.content ∧
        cp.isSticky = src.isSticky ∧
        cp.orderIndex = src.orderIndex) cs copies ∧
      db'.scenarios = db.scenarios ∧
      db'.scenarioCharacters = db.scenarioCharacters := by
  induction cs with
  | nil =>
    intro db
    exact ⟨db, [], rfl, by simp, List.Forall₂.nil, rfl, rfl⟩
  | cons c cs ih =>
    intro db
    obtain ⟨db', copies, h1, h2, h3, h4, h5⟩ :=
      ih (addScenarioInteractionCore db
        { scenarioId := newId, interactionType := c.interactionType,
          characterLabel := c.characterLabel, content := c.content,
          isSticky := some c.isSticky,
          orderIndex := some c.orderIndex }).1
    refine ⟨db',
      ({ id := db.scenarioInteractions.nextId, scenarioId := newId,
         interactionType := c.interactionType,
         characterLabel := c.characterLabel, content := c.content,
         isSticky := c.isSticky,
         orderIndex := c.orderIndex } : ScenarioInteractionRow) :: copies,
      h1, ?_, List.Forall₂.cons ⟨rfl, rfl, rfl, rfl, rfl, rfl⟩ h3, h4, h5⟩
    rw [h2]
    simp [addScenarioInteractionCore, Table.insertRow]

/-- C2 (amended).  Scenario copy: when the source scenario is absent the
operation fails with "Scenario not found"; when present it creates a new
scenario owned by the caller with the source title suffixed `" (Copy)"`,
the same descriptive fields and `isPublic` forced to false, and re-inserts
every child ScenarioCharacter and ScenarioInteraction of the source under
the new scenario id, preserving all of their non-key fields *except* that a
copied ScenarioCharacter's `characterId` link is not carried over (it is
reset to null). -/
theorem scenarioCopy_spec (db : DB) (callerUserId now sid : Nat) :
    (getScenarioByIdCore db sid = none →
      scenariosCopy (some db) callerUserId now sid =
        .error "Scenario not found") ∧
    (∀ src, getScenarioByIdCore db sid = some src →
      ∃ db' copies icopies,
        scenariosCopy (some db) callerUserId now sid =
          .ok (db', db.scenarios.nextId) ∧
        db'.scenarios.rows = db.scenarios.rows ++
          [{ id := db.scenarios.nextId, userId := callerUserId,
             title := src.title ++ " (Copy)",
             promptDescription := src.promptDescription,
             displayDescription := src.displayDescription,
             imageUrl := src.imageUrl, isPublic := some false,
             createdAt := now, updatedAt := now }] ∧
        db'.scenarioCharacters.rows = db.scenarioCharacters.rows ++ copies ∧
        List.Forall₂ (fun srcc cp : ScenarioCharacterRow =>
          cp.scenarioId = db.scenarios.nextId ∧ cp.characterId = none ∧
          cp.name = srcc.name ∧ cp.label = srcc.label ∧
          cp.promptDescription = srcc.promptDescription ∧
          cp.isUserCharacter = srcc.isUserCharacter ∧
          cp.orderIndex = srcc.orderIndex)
          (getScenarioCharactersCore db sid) copies ∧
        db'.scenarioInteractions.rows =
          db.scenarioInteractions.rows ++ icopies ∧
        List.Forall₂ (fun srci cp : ScenarioInteractionRow =>
          cp.scenarioId = db.scenarios.nextId ∧
          cp.interactionType = srci.interactionType ∧
          cp.characterLabel = srci.characterLabel ∧
          cp.content = srci.content ∧ cp.isSticky = srci.isSticky ∧
          cp.orderIndex = srci.orderIndex)
          (getScenarioInteractionsCore db sid) icopies) := by
  constructor
  · intro h
    unfold scenariosCopy
    rw [show getScenarioById (some db) sid = none from h]
  · intro src h
    obtain ⟨db2, copies, hc1, hc2, hc3, hc4, hc5⟩ :=
      copyScenarioCharactersLoop_spec db.scenarios.nextId
        (getScenarioCharactersCore db sid)
        (createScenarioCore db now
          { userId := callerUserId, title := src.title ++ " (Copy)",
            promptDescription := some src.promptDescription,
            displayDescription := some src.displayDescription,
            imageUrl := some src.imageUrl,
            isPublic := some (some false) }).1
    have hint2 : getScenarioInteractionsCore db2 sid =
        getScenarioInteractionsCore db sid := by
      unfold getScenarioInteractionsCore
      rw [hc5]
      rfl
    obtain ⟨db3, icopies, hi1, hi2, hi3, hi4, hi5⟩ :=
      copyScenarioInteractionsLoop_spec db.scenarios.nextId
        (getScenarioInteractionsCore db sid) db2
    refine ⟨db3, copies, icopies, ?_, ?_, ?_, hc3, ?_, hi3⟩
    · unfold scenariosCopy
      rw [show getScenarioById (some db) sid = some src from h]
      show (match copyScenarioCharactersLoop db.scenarios.nextId
          (getScenarioCharactersCore db sid)
          (createScenarioCore db now
            { userId := callerUserId, title := src.title ++ " (Copy)",
              promptDescription := some src.promptDescription,
              displayDescription := some src.displayDescription,
              imageUrl := some src.imageUrl,
              isPublic := some (some false) }).1 with
        | .error e => Except.error e
        | .ok d2 =>
          match copyScenarioInteractionsLoop db.scenarios.nextId
              (getScenarioInteractionsCore d2 sid) d2 with
          | .error e => Except.error e
          | .ok d3 => Except.ok (d3, db.scenarios.nextId)) =
        Except.ok (db3, db.scenarios.nextId)
      rw [hc1]
      show (match copyScenarioInteractionsLoop db.scenarios.nextId
          (getScenarioInteractionsCore db2 sid) db2 with
        | .error e => Except.error e
        | .ok d3 => Except.ok (d3, db.scenarios.nextId)) =
        Except.ok (db3, db.scenarios.nextId)
      rw [hint2, hi1]
    · rw [show db3.scenarios = db2.scenarios from hi4,
        show db2.scenarios = _ from hc4]
      simp [createScenarioCore, Table.insertRow]
    · rw [show db3.scenarioCharacters = db2.scenarioCharacters from hi5]
      exact hc2
    · rw [hi2]
      rw [show db2.scenarioInteractions = _ from hc5]
      rfl

/-- A store for C2: scenario 1 owned by user 1 with one character (which
links `characterId = 7`) and one text interaction. -/
def c2db : DB :=
  { emptyDB with
    scenarios := ⟨[⟨1, 1, "S", none, none, none, some false, 0, 0⟩], 2⟩
    scenarioCharacters :=
      ⟨[⟨1, 1, some 7, "a", "a", none, some false, some 0⟩], 2⟩
    scenarioInteractions :=
      ⟨[⟨1, 1, .text, none, "hi", some false, some 0⟩], 2⟩ }

/-- Witness for C2: user 2 copies scenario 1 of `c2db`. -/
theorem scenarioCopy_spec_witness :
    ∃ db' copies icopies,
      scenariosCopy (some c2db) 2 9 1 = .ok (db', c2db.scenarios.nextId) ∧
      db'.scenarios.rows = c2db.scenarios.rows ++
        [{ id := c2db.scenarios.nextId, userId := 2,
           title := "S" ++ " (Copy)", promptDescription := none,
           displayDescription := none, imageUrl := none,
           isPublic := some false, createdAt := 9, updatedAt := 9 }] ∧
      db'.scenarioCharacters.rows = c2db.scenarioCharacters.rows ++ copies ∧
      List.Forall₂ (fun srcc cp : ScenarioCharacterRow =>
        cp.scenarioId = c2db.scenarios.nextId ∧ cp.characterId = none ∧
        cp.name = srcc.name ∧ cp.label = srcc.label ∧
        cp.promptDescription = srcc.promptDescription ∧
        cp.isUserCharacter = srcc.isUserCharacter ∧
        cp.orderIndex = srcc.orderIndex)
        (getScenarioCharactersCore c2db 1) copies ∧
      db'.scenarioInteractions.rows =
        c2db.scenarioInteractions.rows ++ icopies ∧
      List.Forall₂ (fun srci cp : ScenarioInteractionRow =>
        cp.scenarioId = c2db.scenarios.nextId ∧
        cp.interactionType = srci.interactionType ∧
        cp.characterLabel = srci.characterLabel ∧
        cp.content = srci.content ∧ cp.isSticky = srci.isSticky ∧
        cp.orderIndex = srci.orderIndex)
        (getScenarioInteractionsCore c2db 1) icopies :=
  (scenarioCopy_spec c2db 2 9 1).2
    ⟨1, 1, "S", none, none, none, some false, 0, 0⟩ rfl

/-- Counterexample for C2 as stated: the source's ScenarioCharacter carries
`characterId = 7`, but its copy comes out with `characterId` null — the
copy does not preserve all fields of the child row. -/
theorem scenarioCopy_characterId_counterexample :
    (scenariosCopy (some c2db) 2 9 1).map
      (fun p => p.1.scenarioCharacters.rows.map (fun r => r.characterId)) =
      .ok [some 7, none] := by
  rfl

theorem pairwise_desc_key {α : Type} (k : α → Nat) (l : List α) :
    List.Pairwise (fun a b => k b ≤ k a)
      (sqlOrderBy (fun r => some (-(k r : Int))) l) :=
  (sqlOrderBy_sorted _ l).imp (fun h => by
    simp only [keyRel, oleB, decide_eq_true_eq] at h
    omega)

theorem pairwise_asc_key {α : Type} (k : α → Nat) (l : List α) :
    List.Pairwise (fun a b => k a ≤ k b)
      (sqlOrderBy (fun r => some ((k r : Int))) l) :=
  (sqlOrderBy_sorted _ l).imp (fun h => by
    simp only [keyRel, oleB, decide_eq_true_eq] at h
    omega)

/-- C8 (amended).  Actual default orderings of the list operations: the
owner-scoped character, scenario, chat-session and story lists are most
recently *updated* first; the generated-image list and the public-scenario
list are most recently *created* first; the API-key list carries no ORDER BY
clause and is returned in insertion order; child lists (scenario characters
and interactions, story characters) are ascending by `orderIndex` — stably,
so rows tied on `orderIndex` keep insertion order — and chat messages are
ascending by `createdAt`.  Every list is a permutation of the matching
filter of its table. -/
theorem list_ordering_spec (db : DB) (u sid sesId stId lim : Nat) :
    (List.Pairwise (fun a b => b.updatedAt ≤ a.updatedAt)
        (getCharactersByUserIdCore db u) ∧
      List.Perm (getCharactersByUserIdCore db u)
        (db.characters.rows.filter (fun r => r.userId == u))) ∧
    (List.Pairwise (fun a b => b.updatedAt ≤ a.updatedAt)
        (getScenariosByUserIdCore db u) ∧
      List.Perm (getScenariosByUserIdCore db u)
        (db.scenarios.rows.filter (fun r => r.userId == u))) ∧
    (List.Pairwise (fun a b => b.updatedAt ≤ a.updatedAt)
        (getChatSessionsByUserIdCore db u) ∧
      List.Perm (getChatSessionsByUserIdCore db u)
        (db.chatSessions.rows.filter (fun r => r.userId == u))) ∧
    (List.Pairwise (fun a b => b.updatedAt ≤ a.updatedAt)
        (getStoriesByUserIdCore db u) ∧
      List.Perm (getStoriesByUserIdCore db u)
        (db.stories.rows.filter (fun r => r.userId == u))) ∧
    List.Pairwise (fun a b => b.createdAt ≤ a.createdAt)
      (getGeneratedImagesByUserIdCore db u lim) ∧
    (List.Pairwise (fun a b => b.createdAt ≤ a.createdAt)
        (getPublicScenariosCore db none) ∧
      List.Perm (getPublicScenariosCore db none)
        (db.scenarios.rows.filter (fun r => r.isPublic == some true))) ∧
    getApiKeysByUserIdCore db u =
      (db.apiKeys.rows.filter (fun r => r.userId == u)).map (fun r =>
        { id := r.id, keyName := r.keyName, lastUsed := r.lastUsed,
          createdAt := r.createdAt }) ∧
    (List.Pairwise (fun a b => oleB a.orderIndex b.orderIndex = true)
        (getScenarioCharactersCore db sid) ∧
      List.Perm (getScenarioCharactersCore db sid)
        (db.scenarioCharacters.rows.filter (fun r => r.scenarioId == sid)) ∧
      ∀ v, (getScenarioCharactersCore db sid).filter
          (fun r => r.orderIndex == v) =
        (db.scenarioCharacters.rows.filter
          (fun r => r.scenarioId == sid)).filter
          (fun r => r.orderIndex == v)) ∧
    (List.Pairwise (fun a b => oleB a.orderIndex b.orderIndex = true)
        (getScenarioInteractionsCore db sid) ∧
      List.Perm (getScenarioInteractionsCore db sid)
        (db.scenarioInteractions.rows.filter (fun r => r.scenarioId == sid))) ∧
    (List.Pairwise (fun a b => oleB a.orderIndex b.orderIndex = true)
        (getStoryCharactersCore db stId) ∧
      List.Perm (getStoryCharactersCore db stId)
        (db.storyCharacters.rows.filter (fun r => r.storyId == stId))) ∧
    (List.Pairwise (fun a b => a.createdAt ≤ b.createdAt)
        (getChatMessagesCore db sesId) ∧
      List.Perm (getChatMessagesCore db sesId)
        (db.chatMessages.rows.filter (fun r => r.sessionId == sesId))) :=
  ⟨⟨pairwise_desc_key _ _, sqlOrderBy_perm _ _⟩,
   ⟨pairwise_desc_key _ _, sqlOrderBy_perm _ _⟩,
   ⟨pairwise_desc_key _ _, sqlOrderBy_perm _ _⟩,
   ⟨pairwise_desc_key _ _, sqlOrderBy_perm _ _⟩,
   List.Pairwise.sublist (List.take_sublist _ _) (pairwise_desc_key _ _),
   ⟨pairwise_desc_key _ _, sqlOrderBy_perm _ _⟩,
   rfl,
   ⟨sqlOrderBy_sorted _ _, sqlOrderBy_perm _ _,
    fun v => sqlOrderBy_stable _ v _⟩,
   ⟨sqlOrderBy_sorted _ _, sqlOrderBy_perm _ _⟩,
   ⟨sqlOrderBy_sorted _ _, sqlOrderBy_perm _ _⟩,
   ⟨pairwise_asc_key _ _, sqlOrderBy_perm _ _⟩⟩

/-- A store for the C8 counterexample: two public scenarios where scenario 1
was created first (instant 1) but updated last (instant 10), while scenario
2 was created later (instant 2) and updated at instant 3. -/
def c8db : DB :=
  { emptyDB with
    scenarios := ⟨[⟨1, 1, "A", none, none, none, some true, 1, 10⟩,
                   ⟨2, 1, "B", none, none, none, some true, 2, 3⟩], 3⟩ }

/-- Counterexample for C8 as stated: the public-scenario list operation
returns scenario 2 before scenario 1 because it orders by `createdAt`
descending, so the result is not most-recently-updated-first. -/
theorem list_ordering_counterexample :
    (getPublicScenariosCore c8db none).map
      (fun r => (r.id, r.createdAt, r.updatedAt)) = [(2, 2, 3), (1, 1, 10)] ∧
    ¬ List.Pairwise (fun a b => b.updatedAt ≤ a.updatedAt)
      (getPublicScenariosCore c8db none) := by
  exact ⟨rfl, by decide⟩
